import Mathlib

/-!
Verification of the vibesql SQL frontend (lexer, Pratt expression parser,
semantic analyzer, type system) against its natural-language specification.

Each section is a shallow embedding of one source module:

* `src/types/sql_type.rs`   — `SqlType`, its predicates, `common_supertype`
* `src/lexer/mod.rs`        — comment skipping, `next_token` dispatch, `scan_number`
* `src/parser/expr.rs`      — `parse_expression_with_precedence`, `get_binary_op`
* `src/ast/*.rs`            — the AST fragment reachable from queries/expressions
* `src/analyzer/scope.rs`   — `Scope`, `ScopeTable`, `ScopeColumn`, lookups
* `src/analyzer/type_checker.rs` — `TypedExpr`, `check_expr` and its helpers
* `src/analyzer/mod.rs`     — `Analyzer` state, `analyze_query_result` pipeline

Rust `HashMap`s are embedded as association lists keyed exactly as the source
keys them (lowercased names); where the source iterates over `HashMap::values()`
— an order the Rust standard library leaves unspecified — the embedding takes
the iteration order as an explicit oracle parameter, so that properties can be
stated for every admissible order.  Machine integers (`i64`, `u8`, `usize`)
are embedded as `Int`/`Nat`; the only place overflow matters is the lexer's
`text.parse::<i64>()`, which is modelled by an explicit bound check against
`2^63 - 1`.  `f64` literal values are never inspected by any analyzed code
path and are carried as their source text.
-/

namespace VibeSql

/-! ## Types (`src/types/sql_type.rs`)

`SqlType::Struct(Vec<StructField>)` is embedded with the field vector inlined
as the mutual inductive `SqlStructFields` (a `StructField` is its
`name : Option<String>` and `data_type : SqlType`); `Numeric`'s
`Option<u8>` precision/scale become `Option Nat`. -/

mutual
inductive SqlType where
  | bool
  | int32
  | int64
  | uint32
  | uint64
  | float32
  | float64
  | numeric (precision : Option Nat) (scale : Option Nat)
  | varchar
  | varbinary
  | date
  | time
  | datetime
  | timestamp
  | interval
  | array (elem : SqlType)
  | struct (fields : SqlStructFields)
  | json
  | range (elem : SqlType)
  | uuid
  | unknown
  | any
  deriving DecidableEq, Repr

inductive SqlStructFields where
  | nil
  | cons (name : Option String) (dataType : SqlType) (rest : SqlStructFields)
  deriving DecidableEq, Repr
end

namespace SqlType

/-- Embeds `SqlType::is_numeric`. -/
def isNumeric : SqlType → Bool
  | .int32 | .int64 | .uint32 | .uint64 | .float32 | .float64 | .numeric _ _ => true
  | _ => false

/-- Embeds `SqlType::is_integer` (signed or unsigned). -/
def isInteger : SqlType → Bool
  | .int32 | .int64 | .uint32 | .uint64 => true
  | _ => false

/-- Embeds `SqlType::is_floating_point`. -/
def isFloatingPoint : SqlType → Bool
  | .float32 | .float64 => true
  | _ => false

/-- Embeds `SqlType::common_supertype`.  The Rust function is a single ordered
`match`; the first arm is the equality test, mirrored by the leading `if`.
The guarded arm
`(t, Numeric{..}) | (Numeric{..}, t) if t.is_integer() || t.is_floating_point()`
is expanded into one case per constructor satisfying the guard
(int32/int64/uint32/uint64/float32/float64 paired with numeric); the pairs on
which that guard fails fall through to the later Unknown/Any/catch-all arms
exactly as the guarded Rust `match` does (two `Numeric`s with different
precision/scale reach the catch-all and give `None`). -/
def commonSupertype (a b : SqlType) : Option SqlType :=
  if a = b then some a
  else
    match a, b with
    -- Integer promotions
    | .int32, .int64 | .int64, .int32 => some .int64
    | .uint32, .uint64 | .uint64, .uint32 => some .uint64
    | .int32, .uint32 | .uint32, .int32 => some .int64
    | .int32, .uint64 | .uint64, .int32 => some .float64
    | .int64, .uint64 | .uint64, .int64 => some .float64
    | .uint32, .int64 | .int64, .uint32 => some .int64
    -- Float promotions
    | .float32, .float64 | .float64, .float32 => some .float64
    -- Integer to float promotions
    | .int32, .float32 | .float32, .int32 => some .float32
    | .int32, .float64 | .float64, .int32 => some .float64
    | .int64, .float32 | .float32, .int64 => some .float64
    | .int64, .float64 | .float64, .int64 => some .float64
    | .uint32, .float32 | .float32, .uint32 => some .float32
    | .uint32, .float64 | .float64, .uint32 => some .float64
    | .uint64, .float32 | .float32, .uint64 => some .float64
    | .uint64, .float64 | .float64, .uint64 => some .float64
    -- Numeric supertypes: the guard's satisfying constructors, expanded
    | .int32, .numeric _ _ | .numeric _ _, .int32 => some (.numeric none none)
    | .int64, .numeric _ _ | .numeric _ _, .int64 => some (.numeric none none)
    | .uint32, .numeric _ _ | .numeric _ _, .uint32 => some (.numeric none none)
    | .uint64, .numeric _ _ | .numeric _ _, .uint64 => some (.numeric none none)
    | .float32, .numeric _ _ | .numeric _ _, .float32 => some (.numeric none none)
    | .float64, .numeric _ _ | .numeric _ _, .float64 => some (.numeric none none)
    -- Date/time types
    | .date, .datetime | .datetime, .date => some .datetime
    | .date, .timestamp | .timestamp, .date => some .timestamp
    | .datetime, .timestamp | .timestamp, .datetime => some .timestamp
    -- Unknown resolves to the other type
    | .unknown, other | other, .unknown => some other
    -- Any stays Any
    | .any, _ | _, .any => some .any
    -- Arrays: find common element type
    | .array x, .array y => (commonSupertype x y).map .array
    | _, _ => none

end SqlType

/-- Helper: commutativity of one `common_supertype` step, given commutativity
for the element types of the (only) recursive arm, the Array arm. -/
theorem commonSupertype_comm_aux (a b : SqlType)
    (ih : ∀ x y, a = SqlType.array x → b = SqlType.array y →
      SqlType.commonSupertype x y = SqlType.commonSupertype y x) :
    SqlType.commonSupertype a b = SqlType.commonSupertype b a := by
  cases a <;> cases b <;> try rfl
  case numeric.numeric p s p2 s2 =>
    by_cases h : SqlType.numeric p s = SqlType.numeric p2 s2
    · rw [h]
    · have e1 : SqlType.commonSupertype (.numeric p s) (.numeric p2 s2) =
          if SqlType.numeric p s = SqlType.numeric p2 s2 then
            some (.numeric p s) else none := rfl
      have e2 : SqlType.commonSupertype (.numeric p2 s2) (.numeric p s) =
          if SqlType.numeric p2 s2 = SqlType.numeric p s then
            some (.numeric p2 s2) else none := rfl
      rw [e1, e2, if_neg h, if_neg (Ne.symm h)]
  case array.array x y =>
    by_cases h : SqlType.array x = SqlType.array y
    · rw [h]
    · have e1 : SqlType.commonSupertype (.array x) (.array y) =
          if SqlType.array x = SqlType.array y then
            some (.array x) else (SqlType.commonSupertype x y).map .array := rfl
      have e2 : SqlType.commonSupertype (.array y) (.array x) =
          if SqlType.array y = SqlType.array x then
            some (.array y) else (SqlType.commonSupertype y x).map .array := rfl
      rw [e1, e2, if_neg h, if_neg (Ne.symm h), ih x y rfl rfl]
  case struct.struct fs gs =>
    by_cases h : SqlType.struct fs = SqlType.struct gs
    · rw [h]
    · have e1 : SqlType.commonSupertype (.struct fs) (.struct gs) =
          if SqlType.struct fs = SqlType.struct gs then
            some (.struct fs) else none := rfl
      have e2 : SqlType.commonSupertype (.struct gs) (.struct fs) =
          if SqlType.struct gs = SqlType.struct fs then
            some (.struct gs) else none := rfl
      rw [e1, e2, if_neg h, if_neg (Ne.symm h)]
  case range.range x y =>
    by_cases h : SqlType.range x = SqlType.range y
    · rw [h]
    · have e1 : SqlType.commonSupertype (.range x) (.range y) =
          if SqlType.range x = SqlType.range y then
            some (.range x) else none := rfl
      have e2 : SqlType.commonSupertype (.range y) (.range x) =
          if SqlType.range y = SqlType.range x then
            some (.range y) else none := rfl
      rw [e1, e2, if_neg h, if_neg (Ne.symm h)]

/-- Commutativity of `common_supertype`, by recursion on array nesting. -/
theorem commonSupertype_comm : ∀ (a b : SqlType),
    SqlType.commonSupertype a b = SqlType.commonSupertype b a
  | a, b =>
    commonSupertype_comm_aux a b (fun x y ha hb => by
      subst ha; subst hb
      exact commonSupertype_comm x y)
  termination_by a b => sizeOf a

/-- C7: `common_supertype` is commutative: for all `SqlType` values A and B
(including Unknown, Any, Numeric with differing precision/scale, and nested
Array types), `common_supertype(A, B) == common_supertype(B, A)`. -/
theorem c7_common_supertype_commutative (a b : SqlType) :
    SqlType.commonSupertype a b = SqlType.commonSupertype b a :=
  commonSupertype_comm a b

/-! ## Lexer (`src/lexer/mod.rs`)

The lexer walks a byte position over the source string; the embedding passes
the remaining character list instead, so every scanner takes the characters
from the current position and returns the produced token (or lexical error
kind) together with the unconsumed remainder.  Spans, which carry no
semantics, are omitted.  Rust's Unicode `char::is_whitespace` is embedded as
`Char.isWhitespace` (its ASCII core); no claim involves non-ASCII
whitespace.

Three scanners reached from `next_token` — `scan_string`,
`scan_quoted_identifier` and `scan_identifier_or_keyword` — are not embedded
(no claim depends on string/identifier lexing); their dispatch arms return
the placeholder tokens below. -/

namespace Lexer

/-- Lexical error kinds of `src/error/mod.rs` reachable from the embedded
scanners (`InvalidNumber` carries the offending text, as in
`Error::invalid_number`). -/
inductive LexErrorKind where
  | unexpectedCharacter (c : Char)
  | unterminatedBlockComment
  | invalidNumber (text : String)
  | invalidHexLiteral
  deriving DecidableEq, Repr

/-- Token kinds of `src/lexer/token.rs` producible by the embedded part of
`next_token`.  `At` is renamed `atSign` (Lean keyword); the three
`unmodeled*` constructors stand for the results of the unembedded string /
quoted-identifier / identifier-or-keyword scanners. -/
inductive TokenKind where
  | eof
  | leftParen | rightParen | leftBracket | rightBracket | leftBrace | rightBrace
  | comma | semicolon | plus | star | percent | caret | tilde | question
  | atSign | hash | dollar | backslash
  | arrow | minus | slash | doublePipe | pipe | ampersand | doubleColon | colon
  | doubleDot | dot | fatArrow | eq | notEq | safeEq | ltEq | ltGt | leftShift
  | lt | gtEq | rightShift | gt
  | integer (value : Int)
  | float (text : String)
  | unmodeledString | unmodeledQuotedIdent | unmodeledIdent
  deriving DecidableEq, Repr

/-- Largest `i64` value, `i64::MAX`. -/
def i64Max : Nat := 9223372036854775807

/-- Numeric value of a decimal digit string. -/
def digitsToNat (cs : List Char) : Nat :=
  cs.foldl (fun acc c => acc * 10 + (c.toNat - 48)) 0

/-- Embeds `str::parse::<i64>` as applied to the integer branch of
`scan_number`, whose text is always a nonempty run of decimal digits: the
value when it fits in an `i64`, `none` on overflow (signs never occur
there; the guard also rejects non-digit or empty input, which that branch
cannot produce). -/
def parseI64 (cs : List Char) : Option Int :=
  if cs ≠ [] ∧ cs.all Char.isDigit ∧ digitsToNat cs ≤ i64Max then
    some (Int.ofNat (digitsToNat cs))
  else none

/-- Embeds Rust's `char::is_ascii_hexdigit`. -/
def isAsciiHexDigit (c : Char) : Bool :=
  c.isDigit || ('a' ≤ c && c ≤ 'f') || ('A' ≤ c && c ≤ 'F')

/-- Numeric value of a hex digit string (`i64::from_str_radix(_, 16)`
without the overflow check). -/
def hexToNat (cs : List Char) : Nat :=
  cs.foldl (fun acc c =>
    acc * 16 +
      (if c.isDigit then c.toNat - 48
       else if 'a' ≤ c ∧ c ≤ 'f' then c.toNat - 87
       else c.toNat - 55)) 0

/-- Embeds `Lexer::scan_hex_number` (called after the `0x` prefix is
consumed): scan hex digits, error `InvalidHexLiteral` when there are none,
else parse with `i64::from_str_radix`, overflow being `InvalidNumber`. -/
def scanHexNumber (cs : List Char) : Except LexErrorKind (TokenKind × List Char) :=
  let hexDigits := cs.takeWhile isAsciiHexDigit
  let rest := cs.dropWhile isAsciiHexDigit
  if hexDigits = [] then .error .invalidHexLiteral
  else if hexToNat hexDigits ≤ i64Max then .ok (.integer (hexToNat hexDigits), rest)
  else .error (.invalidNumber (String.mk ('0' :: 'x' :: hexDigits)))

/-- Whether the two leading characters are a `0x`/`0X` hex prefix
(`scan_number`'s `self.check('0') && self.check_next(… 'x' || 'X')`). -/
def isHexStart : List Char → Bool
  | c0 :: c1 :: _ => c0 = '0' && (c1 = 'x' || c1 = 'X')
  | _ => false

/-- Whether a decimal point starts here: `self.check('.')` and the character
after it is an ASCII digit. -/
def decimalFollows : List Char → Bool
  | c0 :: c1 :: _ => c0 = '.' && c1.isDigit
  | _ => false

/-- Whether an exponent marker `e`/`E` is next. -/
def expFollows : List Char → Bool
  | c :: _ => c = 'e' || c = 'E'
  | _ => false

/-- Embeds the exponent-consuming part of `scan_number`'s float branch:
consume `e`/`E`, an optional sign, then digits; returns the consumed text
and the remainder. -/
def scanExponent (cs : List Char) : List Char × List Char :=
  match cs with
  | c :: rest =>
    if c = 'e' || c = 'E' then
      match rest with
      | s :: rest2 =>
        if s = '+' || s = '-' then
          (c :: s :: rest2.takeWhile Char.isDigit, rest2.dropWhile Char.isDigit)
        else (c :: rest.takeWhile Char.isDigit, rest.dropWhile Char.isDigit)
      | [] => ([c], [])
    else ([], cs)
  | [] => ([], [])

/-- Embeds `Lexer::scan_number`, entered with the position reset to the
first character of the literal.  The float branch's `text.parse::<f64>()`
is not modelled (floating point; no claim depends on float values): the
token carries the consumed text. -/
def scanNumber (cs : List Char) : Except LexErrorKind (TokenKind × List Char) :=
  if isHexStart cs then scanHexNumber (cs.drop 2)
  else
    let intPart := cs.takeWhile Char.isDigit
    let rest1 := cs.dropWhile Char.isDigit
    if decimalFollows rest1 || expFollows rest1 then
      -- Floating point number (fraction and exponent parts as pairs of
      -- consumed text and remainder)
      let fracRes :=
        if decimalFollows rest1 then
          ('.' :: (rest1.drop 1).takeWhile Char.isDigit,
           (rest1.drop 1).dropWhile Char.isDigit)
        else ([], rest1)
      let expRes := scanExponent fracRes.2
      .ok (.float (String.mk (intPart ++ fracRes.1 ++ expRes.1)), expRes.2)
    else
      match parseI64 intPart with
      | some v => .ok (.integer v, rest1)
      | none => .error (.invalidNumber (String.mk intPart))

/-- Embeds `Lexer::skip_line_comment`: consume up to (not including) the
next newline.  The caller has already seen the `#` or `--` marker; the
embedding receives the characters after the marker (the marker itself is
not a newline, so dropping it first is equivalent to the source, which
starts the loop at the marker). -/
def skipLineComment (cs : List Char) : List Char :=
  cs.dropWhile (fun c => c ≠ '\n')

/-- Embeds `Lexer::skip_block_comment` after its two opening characters are
consumed, tracking nesting `depth` (the source enters the loop with
`depth = 1`). -/
def skipBlockComment (cs : List Char) (depth : Nat) : Except LexErrorKind (List Char) :=
  if depth = 0 then .ok cs
  else
    match cs with
    | [] => .error .unterminatedBlockComment
    | '*' :: '/' :: rest => skipBlockComment rest (depth - 1)
    | '/' :: '*' :: rest => skipBlockComment rest (depth + 1)
    | _ :: rest => skipBlockComment rest depth
  termination_by cs.length
  decreasing_by all_goals simp_arith

/-- Result of `skip_block_comment` never has more characters than its
input (needed for termination of `skip_whitespace_and_comments`). -/
theorem skipBlockComment_length_le (n : Nat) :
    ∀ (cs : List Char) (depth : Nat) (res : List Char),
      skipBlockComment cs depth = .ok res → cs.length ≤ n →
      res.length ≤ cs.length := by
  induction n with
  | zero =>
    intro cs depth res h hcs
    have hnil : cs = [] := List.length_eq_zero.mp (Nat.le_zero.mp hcs)
    subst hnil
    rw [skipBlockComment.eq_def] at h
    split at h
    · cases h; exact Nat.le_refl _
    · exact absurd h (by simp)
  | succ n ih =>
    intro cs depth res h hcs
    rw [skipBlockComment.eq_def] at h
    split at h
    · cases h; exact Nat.le_refl _
    · split at h
      all_goals
        first
          | exact absurd h (by simp)
          | (have hb := ih _ _ _ h (by simp at hcs; omega)
             simp
             omega)

/-- Dropping a prefix never lengthens a list. -/
theorem dropWhile_len_le (p : Char → Bool) (l : List Char) :
    (l.dropWhile p).length ≤ l.length :=
  (List.dropWhile_suffix p).length_le

/-- Embeds `Lexer::skip_whitespace_and_comments`: repeatedly skip
whitespace, then a nested block comment opened by `/*`, or a line comment
opened by `--` or `#`, until neither follows. -/
def skipWsComments (cs : List Char) : Except LexErrorKind (List Char) :=
  match h1 : cs.dropWhile Char.isWhitespace with
  | '/' :: '*' :: rest =>
    match h2 : skipBlockComment rest 1 with
    | .ok res => skipWsComments res
    | .error e => .error e
  | '-' :: '-' :: rest => skipWsComments (skipLineComment rest)
  | '#' :: rest => skipWsComments (skipLineComment rest)
  | other => .ok other
  termination_by cs.length
  decreasing_by
  · have hd : (cs.dropWhile Char.isWhitespace).length ≤ cs.length :=
      dropWhile_len_le Char.isWhitespace cs
    rw [h1] at hd
    have hb := skipBlockComment_length_le rest.length rest 1 res h2 (Nat.le_refl _)
    simp at hd
    omega
  · have hd : (cs.dropWhile Char.isWhitespace).length ≤ cs.length :=
      dropWhile_len_le Char.isWhitespace cs
    rw [h1] at hd
    have hl : (skipLineComment rest).length ≤ rest.length :=
      dropWhile_len_le _ rest
    simp at hd
    omega
  · have hd : (cs.dropWhile Char.isWhitespace).length ≤ cs.length :=
      dropWhile_len_le Char.isWhitespace cs
    rw [h1] at hd
    have hl : (skipLineComment rest).length ≤ rest.length :=
      dropWhile_len_le _ rest
    simp at hd
    omega

/-- Embeds the token-dispatch part of `Lexer::next_token`: skip whitespace
and comments, return `Eof` at end of input, otherwise dispatch on the first
character exactly as the source `match` does (including the `'#' => Hash`
arm).  Digit- and dot-led numbers reset the position to the literal start
and call `scan_number`, as in the source.  The three arms delegating to the
unembedded scanners (`\'`/`"` strings, backtick identifiers, letter or
underscore identifiers/keywords) return placeholder tokens. -/
def nextToken (cs0 : List Char) : Except LexErrorKind (TokenKind × List Char) :=
  match skipWsComments cs0 with
  | .error e => .error e
  | .ok [] => .ok (.eof, [])
  | .ok (c :: rest) =>
    match c with
    | '(' => .ok (.leftParen, rest)
    | ')' => .ok (.rightParen, rest)
    | '[' => .ok (.leftBracket, rest)
    | ']' => .ok (.rightBracket, rest)
    | '{' => .ok (.leftBrace, rest)
    | '}' => .ok (.rightBrace, rest)
    | ',' => .ok (.comma, rest)
    | ';' => .ok (.semicolon, rest)
    | '+' => .ok (.plus, rest)
    | '*' => .ok (.star, rest)
    | '%' => .ok (.percent, rest)
    | '^' => .ok (.caret, rest)
    | '~' => .ok (.tilde, rest)
    | '?' => .ok (.question, rest)
    | '@' => .ok (.atSign, rest)
    | '#' => .ok (.hash, rest)
    | '$' => .ok (.dollar, rest)
    | '\\' => .ok (.backslash, rest)
    | '-' =>
      match rest with
      | '>' :: rest2 => .ok (.arrow, rest2)
      | _ => .ok (.minus, rest)
    | '/' => .ok (.slash, rest)
    | '|' =>
      match rest with
      | '|' :: rest2 => .ok (.doublePipe, rest2)
      | _ => .ok (.pipe, rest)
    | '&' => .ok (.ampersand, rest)
    | ':' =>
      match rest with
      | ':' :: rest2 => .ok (.doubleColon, rest2)
      | _ => .ok (.colon, rest)
    | '.' =>
      match rest with
      | '.' :: rest2 => .ok (.doubleDot, rest2)
      | d :: _ =>
        if d.isDigit then scanNumber (c :: rest) else .ok (.dot, rest)
      | [] => .ok (.dot, rest)
    | '=' =>
      match rest with
      | '>' :: rest2 => .ok (.fatArrow, rest2)
      | _ => .ok (.eq, rest)
    | '!' =>
      match rest with
      | '=' :: rest2 => .ok (.notEq, rest2)
      | _ => .error (.unexpectedCharacter '!')
    | '<' =>
      match rest with
      | '=' :: '>' :: rest2 => .ok (.safeEq, rest2)
      | '=' :: rest2 => .ok (.ltEq, rest2)
      | '>' :: rest2 => .ok (.ltGt, rest2)
      | '<' :: rest2 => .ok (.leftShift, rest2)
      | _ => .ok (.lt, rest)
    | '>' =>
      match rest with
      | '=' :: rest2 => .ok (.gtEq, rest2)
      | '>' :: rest2 => .ok (.rightShift, rest2)
      | _ => .ok (.gt, rest)
    | '\'' => .ok (.unmodeledString, rest)
    | '"' => .ok (.unmodeledString, rest)
    | '`' => .ok (.unmodeledQuotedIdent, rest)
    | _ =>
      if c.isDigit then scanNumber (c :: rest)
      else if c.isAlpha || c = '_' then .ok (.unmodeledIdent, rest)
      else .error (.unexpectedCharacter c)

end Lexer

/-- Helper: a decimal digit differs from any character that is not one. -/
theorem digit_ne (c : Char) (h : c.isDigit = true) (d : Char)
    (hd : d.isDigit = false) : c ≠ d := by
  intro he; subst he; rw [h] at hd; cases hd

/-- Helper: decimal digits are not whitespace. -/
theorem digit_not_ws (c : Char) (h : c.isDigit = true) :
    c.isWhitespace = false := by
  cases hw : c.isWhitespace
  · rfl
  · exfalso
    have hc : c = ' ' ∨ c = '\t' ∨ c = '\r' ∨ c = '\n' := by
      simpa [Char.isWhitespace, or_assoc] using hw
    rcases hc with h1 | h1 | h1 | h1 <;> (subst h1; exact absurd h (by decide))

/-- Helper: `skip_whitespace_and_comments` is the identity on input that
starts with a decimal digit. -/
theorem skipWsComments_digit_head (c : Char) (rest : List Char)
    (h : c.isDigit = true) :
    Lexer.skipWsComments (c :: rest) = .ok (c :: rest) := by
  have hdw : (c :: rest).dropWhile Char.isWhitespace = c :: rest := by
    rw [List.dropWhile_cons, digit_not_ws c h]
    simp
  rw [Lexer.skipWsComments.eq_def]
  split
  · rename_i heq; rw [hdw] at heq; cases heq; exact absurd h (by decide)
  · rename_i heq; rw [hdw] at heq; cases heq; exact absurd h (by decide)
  · rename_i heq; rw [hdw] at heq; cases heq; exact absurd h (by decide)
  · rw [hdw]

/-- Helper: an all-digit run takes the whole list in `take_while`. -/
theorem takeWhile_digits (ds : List Char) (h : ds.all Char.isDigit = true) :
    ds.takeWhile Char.isDigit = ds :=
  List.takeWhile_eq_self_iff.mpr (by simpa [List.all_eq_true] using h)

/-- Helper: an all-digit run leaves nothing in `drop_while`. -/
theorem dropWhile_digits (ds : List Char) (h : ds.all Char.isDigit = true) :
    ds.dropWhile Char.isDigit = [] :=
  List.dropWhile_eq_nil_iff.mpr (by simpa [List.all_eq_true] using h)

/-- Helper: a nonempty all-digit run is scanned by `scan_number` as one
decimal integer literal consuming the whole run: the `Integer` token when
the value fits in `i64`, the `InvalidNumber` error when it does not. -/
theorem scanNumber_digits (ds : List Char) (hne : ds ≠ [])
    (h : ds.all Char.isDigit = true) :
    Lexer.scanNumber ds =
      (if Lexer.digitsToNat ds ≤ Lexer.i64Max then
        .ok (.integer (Int.ofNat (Lexer.digitsToNat ds)), [])
      else .error (.invalidNumber (String.mk ds))) := by
  have hhex : Lexer.isHexStart ds = false := by
    match ds, hne with
    | [c], _ => rfl
    | c :: c2 :: rest2, _ =>
      have hd2 : c2.isDigit = true := by
        simp [List.all_eq_true] at h
        exact h.2.1
      have h1 : c2 ≠ 'x' := digit_ne c2 hd2 'x' (by decide)
      have h2 : c2 ≠ 'X' := digit_ne c2 hd2 'X' (by decide)
      simp [Lexer.isHexStart, h1, h2]
  rw [Lexer.scanNumber, hhex]
  simp only [Bool.false_eq_true, if_false, takeWhile_digits ds h,
    dropWhile_digits ds h]
  have hdf : Lexer.decimalFollows [] = false := rfl
  have hef : Lexer.expFollows [] = false := rfl
  rw [hdf, hef]
  simp only [Bool.or_self, Bool.false_eq_true, if_false]
  by_cases hle : Lexer.digitsToNat ds ≤ Lexer.i64Max
  · have hp : Lexer.parseI64 ds = some (Int.ofNat (Lexer.digitsToNat ds)) := by
      rw [Lexer.parseI64, if_pos ⟨hne, h, hle⟩]
    rw [hp, if_pos hle]
  · have hp : Lexer.parseI64 ds = none := by
      rw [Lexer.parseI64, if_neg (fun hc => hle hc.2.2)]
    rw [hp, if_neg hle]

/-- C8: lexing the decimal integer literal 9223372036854775807 (`i64::MAX`)
succeeds and yields an Integer token with that value, while any decimal
integer literal whose value exceeds the 64-bit signed range is a lex error
of kind InvalidNumber. -/
theorem c8_i64_boundary :
    Lexer.nextToken "9223372036854775807".toList =
      .ok (.integer 9223372036854775807, []) ∧
    (∀ ds : List Char, ds ≠ [] → ds.all Char.isDigit = true →
      Lexer.i64Max < Lexer.digitsToNat ds →
      Lexer.scanNumber ds = .error (.invalidNumber (String.mk ds))) := by
  constructor
  · have hsn := scanNumber_digits "9223372036854775807".toList
      (by decide) (by decide)
    rw [if_pos (by decide)] at hsn
    have hws : Lexer.skipWsComments "9223372036854775807".toList =
        .ok "9223372036854775807".toList := by
      rw [show "9223372036854775807".toList =
        '9' :: "223372036854775807".toList from rfl]
      exact skipWsComments_digit_head _ _ (by decide)
    rw [Lexer.nextToken, hws]
    show Lexer.scanNumber "9223372036854775807".toList = _
    rw [hsn]
    rw [show Lexer.digitsToNat "9223372036854775807".toList =
      9223372036854775807 from by decide]
    rfl
  · intro ds hne hdig hover
    rw [scanNumber_digits ds hne hdig, if_neg (by omega)]

/-- C8 witness: the value one past `i64::MAX` is rejected as
`InvalidNumber`. -/
theorem c8_i64_boundary_witness :
    Lexer.scanNumber "9223372036854775808".toList =
      .error (.invalidNumber (String.mk "9223372036854775808".toList)) :=
  c8_i64_boundary.2 "9223372036854775808".toList (by decide) (by decide)
    (by decide)


/-- Helper: `scan_hex_number` only produces Integer tokens. -/
theorem scanHexNumber_not_hash (cs : List Char) (t : Lexer.TokenKind)
    (r : List Char) (h : Lexer.scanHexNumber cs = .ok (t, r)) :
    t ≠ .hash := by
  intro ht
  subst ht
  rw [Lexer.scanHexNumber] at h
  split at h
  · cases h
  · split at h <;> simp at h

/-- Helper: `scan_number` only produces Integer and Float tokens. -/
theorem scanNumber_not_hash (cs : List Char) (t : Lexer.TokenKind)
    (r : List Char) (h : Lexer.scanNumber cs = .ok (t, r)) :
    t ≠ .hash := by
  intro ht
  subst ht
  rw [Lexer.scanNumber] at h
  split at h
  · exact scanHexNumber_not_hash _ _ _ h rfl
  · dsimp only at h
    split at h
    · simp at h
    · split at h <;> simp at h

/-- Helper: the character list returned by `skip_whitespace_and_comments`
never starts with `#` — a leading `#` always opens a line comment and is
consumed.  Consequently the `'#' => Hash` arm of `next_token` is dead
code. -/
theorem skipWsComments_head_ne_hash (n : Nat) :
    ∀ cs : List Char, cs.length ≤ n → ∀ l, Lexer.skipWsComments cs = .ok l →
      ∀ r, l ≠ '#' :: r := by
  induction n with
  | zero =>
    intro cs hcs l h r heq
    have hnil : cs = [] := List.length_eq_zero.mp (Nat.le_zero.mp hcs)
    subst hnil
    have h0 : Lexer.skipWsComments [] = .ok ([] : List Char) := by
      rw [Lexer.skipWsComments.eq_def]
      rfl
    rw [h0] at h
    cases h
    cases heq
  | succ n ih =>
    intro cs hcs l h r heq
    have hd : (cs.dropWhile Char.isWhitespace).length ≤ cs.length :=
      Lexer.dropWhile_len_le Char.isWhitespace cs
    rw [Lexer.skipWsComments.eq_def] at h
    split at h
    · rename_i rest heq1
      split at h
      · rename_i res heq2
        have hb := Lexer.skipBlockComment_length_le rest.length rest 1 res heq2
          (Nat.le_refl _)
        refine ih res ?_ l h r heq
        rw [heq1] at hd
        simp at hd
        omega
      · cases h
    · rename_i rest heq1
      have hl : (Lexer.skipLineComment rest).length ≤ rest.length :=
        Lexer.dropWhile_len_le _ rest
      refine ih (Lexer.skipLineComment rest) ?_ l h r heq
      rw [heq1] at hd
      simp at hd
      omega
    · rename_i rest heq1
      have hl : (Lexer.skipLineComment rest).length ≤ rest.length :=
        Lexer.dropWhile_len_le _ rest
      refine ih (Lexer.skipLineComment rest) ?_ l h r heq
      rw [heq1] at hd
      simp at hd
      omega
    · rename_i hn1 hn2 hn3
      cases h
      exact hn3 r heq

/-- Helper: `next_token` never returns the `Hash` operator token: its
`'#'` dispatch arm is unreachable because `skip_whitespace_and_comments`
treats `#` as a line-comment opener. -/
theorem nextToken_never_hash (cs : List Char) (t : Lexer.TokenKind)
    (r : List Char) (h : Lexer.nextToken cs = .ok (t, r)) : t ≠ .hash := by
  intro hhash
  subst hhash
  rw [Lexer.nextToken] at h
  split at h
  · cases h
  · simp at h
  · rename_i c rest heq
    have hne := skipWsComments_head_ne_hash cs.length cs (Nat.le_refl _)
      _ heq
    split at h
    all_goals
      first
        | exact hne _ rfl
        | (simp at h; done)
        | exact scanNumber_not_hash _ _ _ h rfl
        | (split at h <;>
            first
              | (simp at h; done)
              | exact scanNumber_not_hash _ _ _ h rfl
              | (split at h <;>
                  first
                    | (simp at h; done)
                    | exact scanNumber_not_hash _ _ _ h rfl
                    | cases h))

/-- C9 counterexample: on the single-character input `#`, `next()` does not
produce a `#` operator token — it consumes the `#` as a line comment and
yields the Eof token. -/
theorem c9_hash_comment_counterexample :
    Lexer.nextToken ['#'] = .ok (.eof, []) ∧
      Lexer.TokenKind.eof ≠ Lexer.TokenKind.hash := by
  refine ⟨?_, by decide⟩
  have h0 : Lexer.skipWsComments [] = .ok ([] : List Char) := by
    rw [Lexer.skipWsComments.eq_def]
    rfl
  have h1 : Lexer.skipWsComments ['#'] = .ok ([] : List Char) := by
    rw [Lexer.skipWsComments.eq_def]
    show Lexer.skipWsComments (Lexer.skipLineComment []) = .ok []
    exact h0
  rw [Lexer.nextToken, h1]

/-- C9 (amended): `#` is not an operator token: it opens a line comment, so
`next()` never returns a `#` operator token for any input (the `'#' => Hash`
arm of `next_token` is dead code, the rest of the line being discarded by
`skip_whitespace_and_comments`). -/
theorem c9_hash_never_lexed (cs : List Char) (t : Lexer.TokenKind)
    (r : List Char) (h : Lexer.nextToken cs = .ok (t, r)) :
    t ≠ .hash :=
  nextToken_never_hash cs t r h

/-- C9 witness: the amended theorem applied at the empty input, whose token
is Eof. -/
theorem c9_hash_never_lexed_witness :
    Lexer.TokenKind.eof ≠ Lexer.TokenKind.hash := by
  have h : Lexer.nextToken [] = .ok (.eof, []) := by
    have h0 : Lexer.skipWsComments [] = .ok ([] : List Char) := by
      rw [Lexer.skipWsComments.eq_def]
      rfl
    rw [Lexer.nextToken, h0]
  exact c9_hash_never_lexed [] .eof [] h


/-! ## Parser — Pratt expression parsing (`src/parser/expr.rs`)

The claims about expression parsing concern
`parse_expression_with_precedence` (the precedence-climbing loop) and
`get_binary_op`.  The embedding covers the token fragment that drives that
loop: integer-literal primaries and every binary-operator token.  (The
source's `parse_unary_expression` handles prefix operators and keyword-led
primaries, and the loop also probes postfix extensions — none of which can
begin with the fragment's tokens, where `try_parse_postfix_expression`
returns `None`.)  Spans, which carry no semantics, are omitted.

The two mutually recursive functions recurse on a `fuel` argument so that
they compute by reduction; the source functions terminate because every
recursive call consumes at least one token, so any fuel of at least twice
the token count plus two is ample, and `parseExpression` passes that. -/

namespace Ast

/-- Embeds `ast::BinaryOp` (`src/ast/expr.rs`), shared by the parser and
the type checker. -/
inductive BinaryOp where
  | plus | minus | multiply | divide | modulo
  | eq | notEq | lt | ltEq | gt | gtEq
  | and | or
  | bitwiseAnd | bitwiseOr | bitwiseXor | leftShift | rightShift
  | concat
  deriving DecidableEq, Repr

/-- Embeds `BinaryOp::precedence` (higher binds tighter). -/
def BinaryOp.precedence : BinaryOp → Nat
  | .or => 1
  | .and => 2
  | .bitwiseOr => 3
  | .bitwiseXor => 4
  | .bitwiseAnd => 5
  | .leftShift | .rightShift => 6
  | .plus | .minus => 7
  | .multiply | .divide | .modulo | .concat => 8
  | .eq | .notEq | .lt | .ltEq | .gt | .gtEq => 9

/-- Embeds `BinaryOp::is_left_associative` (constantly true: all SQL binary
operators in this grammar are left-associative). -/
def BinaryOp.isLeftAssociative (_ : BinaryOp) : Bool := true

end Ast

namespace Parser

open Ast (BinaryOp)

/-- Token fragment feeding the expression parser: an integer literal and
every token `get_binary_op` recognizes, plus the AND/OR keywords the loop
handles in its own branches. -/
inductive PTok where
  | int (n : Int)
  | plus | minus | star | slash | percent
  | eqTok | notEq | ltGt | lt | ltEq | gt | gtEq
  | ampersand | pipe | caret | leftShift | rightShift | doublePipe
  | kwAnd | kwOr
  deriving DecidableEq, Repr

/-- Expression-tree fragment produced by the embedded parser: integer
literals and `ExprKind::BinaryOp` nodes. -/
inductive PExpr where
  | int (n : Int)
  | binaryOp (op : BinaryOp) (left : PExpr) (right : PExpr)
  deriving DecidableEq, Repr

/-- Embeds `Parser::get_binary_op`: symbol token to operator and precedence
(keyword tokens are not recognized here; note `NotEq` and `LtGt` both map
to `BinaryOp::NotEq`). -/
def getBinaryOp : PTok → Option (BinaryOp × Nat)
  | .plus => some (.plus, 7)
  | .minus => some (.minus, 7)
  | .star => some (.multiply, 8)
  | .slash => some (.divide, 8)
  | .percent => some (.modulo, 8)
  | .eqTok => some (.eq, 9)
  | .notEq | .ltGt => some (.notEq, 9)
  | .lt => some (.lt, 9)
  | .ltEq => some (.ltEq, 9)
  | .gt => some (.gt, 9)
  | .gtEq => some (.gtEq, 9)
  | .ampersand => some (.bitwiseAnd, 5)
  | .pipe => some (.bitwiseOr, 3)
  | .caret => some (.bitwiseXor, 4)
  | .leftShift => some (.leftShift, 6)
  | .rightShift => some (.rightShift, 6)
  | .doublePipe => some (.concat, 8)
  | _ => none

/-- Combined operator dispatch of the loop body: `get_binary_op` first,
then the structurally identical `AND` and `OR` keyword branches (which use
`BinaryOp::{And,Or}.precedence()`). -/
def loopBinaryOp (t : PTok) : Option (BinaryOp × Nat) :=
  match getBinaryOp t with
  | some r => some r
  | none =>
    match t with
    | .kwAnd => some (.and, BinaryOp.and.precedence)
    | .kwOr => some (.or, BinaryOp.or.precedence)
    | _ => none

/-- Embeds the primary parse reached through `parse_unary_expression` for
this fragment: an integer-literal token. -/
def parsePrimary : List PTok → Option (PExpr × List PTok)
  | .int n :: rest => some (.int n, rest)
  | _ => none

mutual

/-- Embeds `Parser::parse_expression_with_precedence`: parse a primary,
then fold in binary operators of precedence at least `minPrec`. -/
def parseExpressionWithPrecedence (fuel minPrec : Nat) (toks : List PTok) :
    Option (PExpr × List PTok) :=
  match fuel with
  | 0 => none
  | fuel + 1 =>
    match parsePrimary toks with
    | none => none
    | some (left, rest) => parseLoop fuel minPrec left rest

/-- The operator loop of `parse_expression_with_precedence`: if the next
token is a binary operator (or AND/OR) whose precedence is at least
`minPrec`, consume it, parse the right operand with
`precedence + 1` (left-associative), build the `BinaryOp` node, repeat;
stop on a lower-precedence operator or any other token (no token of this
fragment starts a postfix extension). -/
def parseLoop (fuel : Nat) (minPrec : Nat) (left : PExpr) (toks : List PTok) :
    Option (PExpr × List PTok) :=
  match fuel with
  | 0 => none
  | fuel + 1 =>
    match toks with
    | t :: rest =>
      match loopBinaryOp t with
      | some (op, prec) =>
        if prec < minPrec then some (left, toks)
        else
          let nextPrec := if op.isLeftAssociative then prec + 1 else prec
          match parseExpressionWithPrecedence fuel nextPrec rest with
          | some (right, rest2) =>
            parseLoop fuel minPrec (.binaryOp op left right) rest2
          | none => none
      | none => some (left, toks)
    | [] => some (left, toks)

end

/-- Embeds `Parser::parse_expression`: minimum precedence 0, with ample
fuel. -/
def parseExpression (toks : List PTok) : Option (PExpr × List PTok) :=
  parseExpressionWithPrecedence (2 * toks.length + 2) 0 toks

/-- The token for each binary operator (AND/OR are keyword tokens; NotEq
uses the `!=` token). -/
def tokOf : BinaryOp → PTok
  | .plus => .plus
  | .minus => .minus
  | .multiply => .star
  | .divide => .slash
  | .modulo => .percent
  | .eq => .eqTok
  | .notEq => .notEq
  | .lt => .lt
  | .ltEq => .ltEq
  | .gt => .gt
  | .gtEq => .gtEq
  | .and => .kwAnd
  | .or => .kwOr
  | .bitwiseAnd => .ampersand
  | .bitwiseOr => .pipe
  | .bitwiseXor => .caret
  | .leftShift => .leftShift
  | .rightShift => .rightShift
  | .concat => .doublePipe

end Parser

/-- C1: for every ternary expression `a op1 b op2 c` over the documented
binary operators, the parser groups `b` with the higher-precedence
operator, grouping left on ties; in particular `1 + 2 * 3` parses as
`Plus(1, Multiply(2, 3))`. -/
theorem c1_ternary_precedence :
    (∀ (a b c : Int) (o1 o2 : Ast.BinaryOp),
      Parser.parseExpression
          [.int a, Parser.tokOf o1, .int b, Parser.tokOf o2, .int c] =
        some
          (if o1.precedence < o2.precedence then
            .binaryOp o1 (.int a) (.binaryOp o2 (.int b) (.int c))
          else .binaryOp o2 (.binaryOp o1 (.int a) (.int b)) (.int c), [])) ∧
    Parser.parseExpression [.int 1, .plus, .int 2, .star, .int 3] =
      some (.binaryOp .plus (.int 1)
        (.binaryOp .multiply (.int 2) (.int 3)), []) := by
  constructor
  · intro a b c o1 o2
    cases o1 <;> cases o2 <;> rfl
  · rfl


/-! ## AST (`src/ast/mod.rs`, `src/ast/expr.rs`)

The query/expression AST fragment reachable from `analyze_query_result` and
`TypeChecker::check_expr`.  Source spans, which carry no semantics, are
omitted throughout, so `Expr` stands for `ExprKind` (the `Expr { kind, span }`
wrapper collapses).  `Vec<T>` becomes `List T`; the pair lists inside `Case`
and `* REPLACE` become the dedicated single-constructor inductives
`CaseWhen` / `ReplaceItem`.  `WindowSpec` internals are never read by the
analyzer and are not embedded (`WindowSpecOrRef::Spec` keeps no payload).
`DataTypeSpec` is embedded with its fields inlined (`DataTypeFields` lists a
struct's `name`/`data_type` pairs).

The `Box<Query>` payloads inside expressions (`Subquery`, `Exists`,
`InSubquery`, `SubqueryOp`, and `InList::Subquery`) are not embedded:
`TypeChecker::check_expr` returns a fixed type for each of these arms
without ever reading the contained query, and the analyzer reaches nested
queries only through `TableRef::Subquery` and CTEs, which keep theirs.
Dropping those payloads splits the AST into an expression group and a
query group, with queries simply referring to expressions. -/

namespace Ast

/-- Embeds `Ident` (value and quoted flag; span omitted). -/
structure Ident where
  value : String
  quoted : Bool
  deriving DecidableEq, Repr

/-- Embeds `ObjectName` (span omitted). -/
structure ObjectName where
  parts : List Ident
  deriving DecidableEq, Repr

/-- Embeds `Alias`. -/
structure Alias where
  name : Ident
  columns : List Ident
  deriving DecidableEq, Repr

/-- Embeds `Parameter`. -/
inductive Parameter where
  | named (name : String)
  | positional (n : Nat)
  deriving DecidableEq, Repr

/-- Embeds `UnaryOp`. -/
inductive UnaryOp where
  | plus | minus | not | bitwiseNot
  deriving DecidableEq, Repr

/-- Embeds `IsTest`. -/
inductive IsTest where
  | null | true | false | unknown
  deriving DecidableEq, Repr

/-- Embeds `SubqueryModifier`. -/
inductive SubqueryModifier where
  | any | some | all
  deriving DecidableEq, Repr

/-- Embeds `NullTreatment`. -/
inductive NullTreatment where
  | respectNulls | ignoreNulls
  deriving DecidableEq, Repr

/-- Embeds `ArrayOffsetType`. -/
inductive ArrayOffsetType where
  | offset | ordinal
  deriving DecidableEq, Repr

/-- Embeds `DateTimePart` (payload unread by the type checker). -/
inductive DateTimePart where
  | year | month | day | hour | minute | second
  | millisecond | microsecond | nanosecond
  | dayofweek | dayofyear | week | quarter
  | date | time | datetime | isoweek | isoyear
  deriving DecidableEq, Repr

/-- Embeds `IntervalUnit`. -/
inductive IntervalUnit where
  | year | month | day | hour | minute | second
  | millisecond | microsecond | nanosecond | week | quarter
  deriving DecidableEq, Repr

/-- Embeds `TypedLiteralType`. -/
inductive TypedLiteralType where
  | date | time | timestamp | datetime | json | numeric | bignumeric | range
  deriving DecidableEq, Repr

/-- Embeds `SortOrder`. -/
inductive SortOrder where
  | asc | desc
  deriving DecidableEq, Repr

/-- Embeds `NullsOrder`. -/
inductive NullsOrder where
  | first | last
  deriving DecidableEq, Repr

/-- Embeds `SetOperator`. -/
inductive SetOperator where
  | union | intersect | exceptOp
  deriving DecidableEq, Repr

/-- Embeds `Distinct`. -/
inductive Distinct where
  | all | distinct
  deriving DecidableEq, Repr

/-- Embeds `SelectAs`. -/
inductive SelectAs where
  | struct | value | typeName (name : ObjectName)
  deriving DecidableEq, Repr

/-- Embeds `JoinType`. -/
inductive JoinType where
  | inner | left | right | full | cross | natural
  | leftSemi | rightSemi | leftAnti | rightAnti
  deriving DecidableEq, Repr

mutual

/-- Embeds `DataTypeSpec` (with `DataTypeKind` inlined; span omitted). -/
inductive DataTypeSpec where
  | bool | int32 | int64 | uint32 | uint64 | float32 | float64
  | numeric (precision : Option Nat) (scale : Option Nat)
  | varchar (length : Option Nat)
  | varbinary (length : Option Nat)
  | date | time | datetime | timestamp | interval | json | uuid
  | array (elem : DataTypeSpec)
  | struct (fields : DataTypeFields)
  | range (elem : DataTypeSpec)
  | named (name : ObjectName)

/-- Embeds the field list of `DataTypeKind::Struct`. -/
inductive DataTypeFields where
  | nil
  | cons (name : Option Ident) (dataType : DataTypeSpec) (rest : DataTypeFields)

end

/-- Embeds `WindowSpecOrRef` (spec internals unread, omitted). -/
inductive WindowSpecOrRef where
  | spec
  | ref (name : Ident)

/-- Embeds `WindowDef` (spec internals unread, omitted). -/
inductive WindowDef where
  | mk (name : Ident)

mutual

/-- Embeds `ExprKind` (with the span-carrying `Expr` wrapper collapsed).
`Float` carries its source text (`f64` values are never read);
`Bytes` carries its byte values as `Nat`s.  The `Box<Query>` payloads of
the subquery arms are unread by the type checker and not embedded. -/
inductive Expr where
  | null
  | boolean (b : Bool)
  | integer (n : Int)
  | float (text : String)
  | string (s : String)
  | bytes (bs : List Nat)
  | array (elementType : Option DataTypeSpec) (elements : List Expr)
  | struct (fields : List StructFieldLit)
  | identifier (ident : Ident)
  | compoundIdentifier (parts : List Ident)
  | parameter (p : Parameter)
  | unaryOp (op : UnaryOp) (expr : Expr)
  | binaryOp (op : BinaryOp) (left : Expr) (right : Expr)
  | between (expr : Expr) (low : Expr) (high : Expr) (negated : Bool)
  | inExpr (expr : Expr) (list : InList) (negated : Bool)
  | like (expr : Expr) (pattern : Expr) (escape : Option Expr) (negated : Bool)
  | isExpr (expr : Expr) (test : IsTest) (negated : Bool)
  | isDistinct (left : Expr) (right : Expr) (negated : Bool)
  | function (f : FunctionCall)
  | aggregate (agg : AggregateCall)
  | windowFunction (wf : WindowFunctionCall)
  | cast (expr : Expr) (dataType : DataTypeSpec) (safe : Bool)
  | extract (field : DateTimePart) (from_ : Expr)
  | caseExpr (operand : Option Expr) (conditions : List CaseWhen)
      (elseResult : Option Expr)
  | ifExpr (condition : Expr) (thenExpr : Expr) (elseExpr : Expr)
  | coalesce (exprs : List Expr)
  | nullif (left : Expr) (right : Expr)
  | ifNull (expr : Expr) (nullReplacement : Expr)
  | subquery
  | existsExpr (negated : Bool)
  | subqueryOp (left : Expr) (op : BinaryOp) (modifier : SubqueryModifier)
  | inSubquery (expr : Expr) (negated : Bool)
  | arraySubscript (array : Expr) (index : ArraySubscriptKind)
  | safeArraySubscript (array : Expr) (index : Expr)
      (offsetType : ArrayOffsetType)
  | fieldAccess (expr : Expr) (field : Ident)
  | jsonSubscript (expr : Expr) (key : JsonKey)
  | interval (value : Expr) (unit : IntervalUnit)
  | typedLiteral (dataType : TypedLiteralType) (value : String)
  | parenthesized (inner : Expr)
  | row (exprs : List Expr)

/-- Embeds the struct-literal field `StructField { name, value }` of
`ExprKind::Struct`. -/
inductive StructFieldLit where
  | mk (name : Option Ident) (value : Expr)

/-- Embeds one `(condition, result)` pair of `ExprKind::Case`. -/
inductive CaseWhen where
  | mk (condition : Expr) (result : Expr)

/-- Embeds `InList` (the subquery payload unread by the checker, not
embedded). -/
inductive InList where
  | values (vs : List Expr)
  | subquery

/-- Embeds `ArraySubscriptKind`. -/
inductive ArraySubscriptKind where
  | index (e : Expr)
  | offset (e : Expr)
  | ordinal (e : Expr)
  | safeOffset (e : Expr)
  | safeOrdinal (e : Expr)

/-- Embeds `JsonKey`. -/
inductive JsonKey where
  | string (s : String)
  | index (e : Expr)

/-- Embeds `FunctionCall`. -/
inductive FunctionCall where
  | mk (name : ObjectName) (args : List FunctionArg) (distinct : Bool)
      (nullTreatment : Option NullTreatment) (orderBy : List OrderByExpr)
      (limit : Option Expr)

/-- Embeds `FunctionArg`. -/
inductive FunctionArg where
  | unnamed (e : Expr)
  | named (name : Ident) (value : Expr)
  | star

/-- Embeds `AggregateCall`. -/
inductive AggregateCall where
  | mk (function : FunctionCall) (filter : Option Expr)

/-- Embeds `WindowFunctionCall` (the window spec payload is never read by
the analyzer and is not embedded). -/
inductive WindowFunctionCall where
  | mk (function : FunctionCall) (window : WindowSpecOrRef)

/-- Embeds `OrderByExpr`. -/
inductive OrderByExpr where
  | mk (expr : Expr) (order : Option SortOrder) (nulls : Option NullsOrder)

end

/-- Embeds `LimitClause`. -/
inductive LimitClause where
  | mk (count : Option Expr) (offset : Option Expr)

/-- Embeds one element of `GroupByItem::GroupingSets`. -/
inductive GroupingSet where
  | mk (es : List Expr)

/-- Embeds `GroupByItem`. -/
inductive GroupByItem where
  | expr (e : Expr)
  | rollup (es : List Expr)
  | cube (es : List Expr)
  | groupingSets (sets : List GroupingSet)

/-- Embeds `GroupByClause`. -/
inductive GroupByClause where
  | mk (items : List GroupByItem)

/-- Embeds `SqlOption`. -/
inductive SqlOption where
  | mk (name : Ident) (value : Expr)

/-- Embeds `JoinCondition`. -/
inductive JoinCondition where
  | on (e : Expr)
  | using_ (cols : List Ident)

/-- Embeds one `(Box<Expr>, Ident)` pair of `SelectItem::WildcardReplace`. -/
inductive ReplaceItem where
  | mk (expr : Expr) (column : Ident)

/-- Embeds `SelectItem`. -/
inductive SelectItem where
  | exprItem (expr : Expr) (alias_ : Option Ident)
  | wildcard
  | qualifiedWildcard (qualifier : ObjectName)
  | wildcardExcept (qualifier : Option ObjectName) (except : List Ident)
  | wildcardReplace (qualifier : Option ObjectName)
      (replace : List ReplaceItem)

mutual

/-- Embeds `Query`. -/
inductive Query where
  | mk (withClause : Option WithClause) (body : QueryBody)
      (orderBy : List OrderByExpr) (limit : Option LimitClause)

/-- Embeds `WithClause`. -/
inductive WithClause where
  | mk (recursive : Bool) (ctes : List Cte)

/-- Embeds `Cte`. -/
inductive Cte where
  | mk (name : Ident) (columns : List Ident) (query : Query)

/-- Embeds `QueryBody`. -/
inductive QueryBody where
  | select (sel : Select)
  | setOperation (op : SetOperator) (all : Bool) (left : QueryBody)
      (right : QueryBody)
  | parenthesized (q : Query)

/-- Embeds `Select`. -/
inductive Select where
  | mk (distinct : Option Distinct) (selectAs : Option SelectAs)
      (projection : List SelectItem) (fromClause : Option FromClause)
      (whereClause : Option Expr) (groupBy : Option GroupByClause)
      (having : Option Expr) (qualify : Option Expr)
      (window : List WindowDef)

/-- Embeds `FromClause`. -/
inductive FromClause where
  | mk (tables : List TableRef)

/-- Embeds `TableRef`. -/
inductive TableRef where
  | table (name : ObjectName) (alias_ : Option Alias) (hints : List SqlOption)
  | subquery (query : Query) (alias_ : Option Alias)
  | unnest (expr : Expr) (alias_ : Option Alias) (withOffset : Bool)
      (offsetAlias : Option Ident)
  | join (left : TableRef) (right : TableRef) (joinType : JoinType)
      (condition : Option JoinCondition)
  | parenthesized (inner : TableRef)
  | tableFunction (name : ObjectName) (args : List FunctionArg)
      (alias_ : Option Alias)

end

end Ast


/-! ## Catalog (`src/catalog/schema.rs`, `src/catalog/function.rs`)

The analyzer reaches the catalog only through `resolve_table` and
`resolve_function`; a catalog is embedded as that pair of lookups.  The
source's `Result<Option<T>>` collapses: at every call site an `Err` and an
`Ok(None)` are mapped to the same not-found error. -/

/-- Embeds Rust `str::to_lowercase` as per-character ASCII lowercasing (the
two agree on the ASCII names involved). -/
def strToLower (s : String) : String :=
  String.mk (s.data.map Char.toLower)

/-- Embeds Rust `str::to_uppercase`, likewise per-character. -/
def strToUpper (s : String) : String :=
  String.mk (s.data.map Char.toUpper)

/-- Embeds `str::eq_ignore_ascii_case`. -/
def eqIgnoreAsciiCase (a b : String) : Bool :=
  strToLower a == strToLower b

namespace Catalog

/-- Embeds `ColumnSchema`. -/
structure ColumnSchema where
  name : String
  dataType : SqlType
  nullable : Bool
  isPrimaryKey : Bool
  defaultValue : Option String
  description : Option String
  deriving DecidableEq, Repr

/-- Embeds `ColumnSchema::new` (nullable, non-key, no default). -/
def ColumnSchema.new (name : String) (dataType : SqlType) : ColumnSchema :=
  { name, dataType, nullable := true, isPrimaryKey := false,
    defaultValue := none, description := none }

/-- Embeds `ColumnSchema::not_null`. -/
def ColumnSchema.notNull (c : ColumnSchema) : ColumnSchema :=
  { c with nullable := false }

/-- Embeds `TableSchema`. -/
structure TableSchema where
  name : String
  columns : List ColumnSchema
  deriving DecidableEq, Repr

/-- Embeds `TableSchema::get_column` (case-insensitive). -/
def TableSchema.getColumn (t : TableSchema) (name : String) :
    Option ColumnSchema :=
  t.columns.find? fun c => eqIgnoreAsciiCase c.name name

/-- Embeds `FunctionParameter`. -/
structure FunctionParameter where
  name : Option String
  dataType : Option SqlType
  optional : Bool
  variadic : Bool
  deriving DecidableEq, Repr

/-- Embeds `FunctionSignature`. -/
structure FunctionSignature where
  name : String
  parameters : List FunctionParameter
  returnType : SqlType
  isAggregate : Bool
  isWindow : Bool
  isDeterministic : Bool
  minArgs : Nat
  maxArgs : Option Nat
  deriving DecidableEq, Repr

/-- Embeds `FunctionSignature::scalar`. -/
def FunctionSignature.scalar (name : String) (returnType : SqlType) :
    FunctionSignature :=
  { name := strToUpper name, parameters := [], returnType,
    isAggregate := false, isWindow := false, isDeterministic := true,
    minArgs := 0, maxArgs := none }

/-- Embeds `FunctionSignature::aggregate`. -/
def FunctionSignature.aggregate (name : String) (returnType : SqlType) :
    FunctionSignature :=
  { FunctionSignature.scalar name returnType with isAggregate := true }

/-- Embeds `FunctionSignature::window`. -/
def FunctionSignature.window (name : String) (returnType : SqlType) :
    FunctionSignature :=
  { FunctionSignature.scalar name returnType with isWindow := true }

/-- Embeds `FunctionSignature::accepts_arg_count`. -/
def FunctionSignature.acceptsArgCount (sig : FunctionSignature)
    (count : Nat) : Bool :=
  if count < sig.minArgs then false
  else
    match sig.maxArgs with
    | some mx => count ≤ mx
    | none => true

/-- The `Catalog` trait as seen by the analyzer: its two lookups. -/
structure Catalog where
  resolveTable : List String → Option TableSchema
  resolveFunction : List String → Option FunctionSignature

end Catalog

/-! ## Analyzer scope (`src/analyzer/scope.rs`)

`Scope`'s three `HashMap<String, _>`s become association lists keyed by the
same lowercased keys the source inserts.  The source iterates
`tables.values()` in `lookup_column` and `all_tables`; the Rust standard
library leaves that order unspecified (and `RandomState` changes it between
runs), so both operations take the iteration order as an oracle
`iter : List (String × ScopeTable) → List ScopeTable`; an admissible oracle
returns a permutation of the stored values, and `valuesInOrder` (insertion
order) is one such oracle used for concrete runs. -/

namespace Analyzer

open Catalog

/-- Insert into an association list embedding `HashMap::insert`: replace
the existing binding for the key, or append a new one. -/
def assocInsert {α : Type} (k : String) (v : α) :
    List (String × α) → List (String × α)
  | [] => [(k, v)]
  | (k2, v2) :: rest =>
    if k2 = k then (k, v) :: rest else (k2, v2) :: assocInsert k v rest

/-- Lookup in an association list embedding `HashMap::get`. -/
def assocGet {α : Type} (k : String) : List (String × α) → Option α
  | [] => none
  | (k2, v2) :: rest => if k2 = k then some v2 else assocGet k rest

/-- Embeds `ScopeColumn`. -/
structure ScopeColumn where
  name : String
  dataType : SqlType
  nullable : Bool
  tableAlias : String
  columnIndex : Nat
  deriving DecidableEq, Repr

/-- Embeds `ScopeTable`. -/
structure ScopeTable where
  alias_ : String
  originalName : List String
  columns : List ScopeColumn
  deriving DecidableEq, Repr

/-- Embeds `ScopeTable::get_column` (case-insensitive via lowercasing). -/
def ScopeTable.getColumn (t : ScopeTable) (name : String) :
    Option ScopeColumn :=
  t.columns.find? fun c => strToLower c.name = strToLower name

/-- Embeds `CteRef`. -/
structure CteRef where
  name : String
  columns : List ScopeColumn
  isRecursive : Bool
  deriving DecidableEq, Repr

/-- Embeds `ExprRef` (named SELECT aliases; the source never populates
this map — see spec §9 — but the field exists). -/
structure ExprRef where
  name : String
  dataType : SqlType
  nullable : Bool
  ordinal : Nat
  deriving DecidableEq, Repr

/-- Embeds `Scope`. -/
structure Scope where
  tables : List (String × ScopeTable)
  ctes : List (String × CteRef)
  namedExprs : List (String × ExprRef)
  allowsAggregates : Bool
  inAggregate : Bool
  inWindow : Bool
  groupByColumns : List String
  hasGroupBy : Bool
  deriving DecidableEq, Repr

/-- Embeds `Scope::new`. -/
def Scope.new : Scope :=
  { tables := [], ctes := [], namedExprs := [], allowsAggregates := true,
    inAggregate := false, inWindow := false, groupByColumns := [],
    hasGroupBy := false }

/-- Embeds `Scope::add_table` (keyed by the lowercased alias). -/
def Scope.addTable (sc : Scope) (t : ScopeTable) : Scope :=
  { sc with tables := assocInsert (strToLower t.alias_) t sc.tables }

/-- Embeds `Scope::add_cte` (keyed by the lowercased name). -/
def Scope.addCte (sc : Scope) (c : CteRef) : Scope :=
  { sc with ctes := assocInsert (strToLower c.name) c sc.ctes }

/-- Embeds `Scope::lookup_table`. -/
def Scope.lookupTable (sc : Scope) (name : String) : Option ScopeTable :=
  assocGet (strToLower name) sc.tables

/-- Embeds `Scope::lookup_cte`. -/
def Scope.lookupCte (sc : Scope) (name : String) : Option CteRef :=
  assocGet (strToLower name) sc.ctes

/-- Embeds `Scope::has_table`. -/
def Scope.hasTable (sc : Scope) (name : String) : Bool :=
  (sc.lookupTable name).isSome

/-- Embeds `Scope::has_cte`. -/
def Scope.hasCte (sc : Scope) (name : String) : Bool :=
  (sc.lookupCte name).isSome

/-- Embeds `ColumnLookupResult`. -/
inductive ColumnLookupResult where
  | found (table : ScopeTable) (column : ScopeColumn)
  | notFound
  | ambiguous (tables : List String)
  deriving DecidableEq, Repr

/-- The insertion-order values oracle: one admissible iteration order for
the embedded `HashMap`s. -/
def valuesInOrder {α : Type} (l : List (String × α)) : List α :=
  l.map Prod.snd

/-- Embeds `Scope::lookup_column`: collect the case-insensitive matches
over all tables in `iter`-order; zero, one, or many decide the result. -/
def Scope.lookupColumn (iter : List (String × ScopeTable) → List ScopeTable)
    (sc : Scope) (name : String) : ColumnLookupResult :=
  let nameLower := strToLower name
  let found := (iter sc.tables).flatMap fun t =>
    t.columns.filterMap fun col =>
      if strToLower col.name = nameLower then some (t, col) else none
  match found with
  | [] => .notFound
  | [(t, col)] => .found t col
  | _ => .ambiguous (found.map fun p => p.1.alias_)

/-- Embeds `Scope::lookup_qualified_column`. -/
def Scope.lookupQualifiedColumn (sc : Scope) (tableName columnName : String) :
    Option ScopeColumn :=
  match sc.lookupTable tableName with
  | none => none
  | some t => t.getColumn columnName

/-- Embeds `Scope::all_tables` (`tables.values()` in oracle order). -/
def Scope.allTables (iter : List (String × ScopeTable) → List ScopeTable)
    (sc : Scope) : List ScopeTable :=
  iter sc.tables

/-- Embeds `AnalyzerErrorKind` (`src/analyzer/error.rs`).  The wrapping
`AnalyzerError`'s span and context carry no semantics and are omitted. -/
inductive AnalyzerError where
  | tableNotFound (name : String)
  | columnNotFound (name : String) (table : Option String)
  | ambiguousColumn (name : String) (tables : List String)
  | functionNotFound (name : String)
  | wrongArgumentCount (function : String) (expectedMin : Nat)
      (expectedMax : Option Nat) (actual : Nat)
  | typeMismatch (expected : SqlType) (actual : SqlType) (context : String)
  | typesNotComparable (left : SqlType) (right : SqlType)
  | invalidAggregateUse (function : String) (reason : String)
  | invalidWindowUse (function : String) (reason : String)
  | duplicateAlias (name : String)
  | duplicateGroupByColumn (name : String)
  | nonAggregatedColumn (column : String)
  | orderByNotInSelect (column : String)
  | havingWithoutGroupBy
  | invalidSubquery (reason : String)
  | divisionByZero
  | invalidCast (fromType : SqlType) (toType : SqlType)
  | invalidDateTimeLiteral (value : String) (expectedType : String)
  | duplicateCte (name : String)
  | invalidRecursiveCte (reason : String)
  | starNotAllowed (context : String)
  | setOperationColumnMismatch (left : Nat) (right : Nat)
  | other (message : String)
  deriving DecidableEq, Repr

end Analyzer


/-! ## Type checker (`src/analyzer/type_checker.rs`)

`TypeChecker` holds only a catalog reference; `check_expr` is a pure
bottom-up pass.  The embedding takes the catalog and the table-iteration
oracle as section parameters.  Rust's `?` operator is embedded as the
explicit match on the `Except` result. -/

namespace Analyzer

open Ast

/-- Embeds `TypedExpr`. -/
structure TypedExpr where
  dataType : SqlType
  nullable : Bool
  containsAggregate : Bool
  containsWindow : Bool
  deriving DecidableEq, Repr

/-- Embeds `TypedExpr::non_null`. -/
def TypedExpr.nonNull (dataType : SqlType) : TypedExpr :=
  { dataType, nullable := false, containsAggregate := false,
    containsWindow := false }

/-- Embeds `TypedExpr::nullable` (named `mkNullable`: `nullable` is the
field projection). -/
def TypedExpr.mkNullable (dataType : SqlType) : TypedExpr :=
  { dataType, nullable := true, containsAggregate := false,
    containsWindow := false }

mutual

/-- Embeds `TypeChecker::convert_data_type`. -/
def convertDataType : DataTypeSpec → SqlType
  | .bool => .bool
  | .int32 => .int32
  | .int64 => .int64
  | .uint32 => .uint32
  | .uint64 => .uint64
  | .float32 => .float32
  | .float64 => .float64
  | .numeric _ _ => .numeric none none
  | .varchar _ => .varchar
  | .varbinary _ => .varbinary
  | .date => .date
  | .time => .time
  | .datetime => .datetime
  | .timestamp => .timestamp
  | .interval => .interval
  | .json => .json
  | .uuid => .uuid
  | .array elem => .array (convertDataType elem)
  | .struct fields => .struct (convertDataTypeFields fields)
  | .range elem => .range (convertDataType elem)
  | .named _ => .unknown

/-- Field-list part of `convert_data_type` (struct fields). -/
def convertDataTypeFields : DataTypeFields → SqlStructFields
  | .nil => .nil
  | .cons n dt rest =>
    .cons (n.map fun i => i.value) (convertDataType dt)
      (convertDataTypeFields rest)

end

/-- Field search of the `FieldAccess` arm of `check_expr`
(case-insensitive on named fields). -/
def findStructField : SqlStructFields → String → Option SqlType
  | .nil, _ => none
  | .cons n dt rest, field =>
    match n with
    | some nm =>
      if eqIgnoreAsciiCase nm field then some dt
      else findStructField rest field
    | none => findStructField rest field

/-- The type of the `TypedLiteral` arm of `check_expr`. -/
def typedLiteralType : TypedLiteralType → SqlType
  | .date => .date
  | .time => .time
  | .timestamp => .timestamp
  | .datetime => .datetime
  | .json => .json
  | .numeric => .numeric none none
  | .bignumeric => .numeric none none
  | .range => .unknown

/-- Embeds Rust's `?` on a fallible value: propagate the error, continue
with the payload. -/
def bindE {ε α β : Type} (x : Except ε α) (f : α → Except ε β) :
    Except ε β :=
  match x with
  | .error e => .error e
  | .ok a => f a

/-- Embeds Rust's `?` on a fallible, state-mutating call: propagate the
error with the state reached so far, or continue with payload and state. -/
def bindS {ε σ α β : Type} (x : Except ε α × σ)
    (f : α → σ → Except ε β × σ) : Except ε β × σ :=
  match x with
  | (.error e, s) => (.error e, s)
  | (.ok a, s) => f a s

section TypeCheck

variable (cat : Catalog.Catalog)
variable (iter : List (String × ScopeTable) → List ScopeTable)

/-- Embeds `TypeChecker::check_column`. -/
def checkColumn (colName : String) (tableName : Option String)
    (scope : Scope) : Except AnalyzerError TypedExpr :=
  match tableName with
  | some table =>
    match scope.lookupQualifiedColumn table colName with
    | some col =>
      .ok { dataType := col.dataType, nullable := col.nullable,
            containsAggregate := false, containsWindow := false }
    | none => .error (.columnNotFound colName (some table))
  | none =>
    match Scope.lookupColumn iter scope colName with
    | .found _ col =>
      .ok { dataType := col.dataType, nullable := col.nullable,
            containsAggregate := false, containsWindow := false }
    | .notFound => .error (.columnNotFound colName none)
    | .ambiguous tables => .error (.ambiguousColumn colName tables)

mutual

/-- Embeds `TypeChecker::check_expr`.  The functions of this block take a
step count `fuel`, spent one level per call, so that the mutual recursion
(which runs through nested expression lists) is structural and reduces in
the kernel; the Rust recursion is bounded by the expression's size, so
every use below instantiates `fuel` large enough that the limit is never
reached. -/
def checkExpr (fuel : Nat) (e : Expr) (scope : Scope) :
    Except AnalyzerError TypedExpr :=
  match fuel with
  | 0 => .error (.other "recursion limit")
  | fuel + 1 =>
    match e with
    -- Literals
    | .null => .ok (TypedExpr.mkNullable .unknown)
    | .boolean _ => .ok (TypedExpr.nonNull .bool)
    | .integer _ => .ok (TypedExpr.nonNull .int64)
    | .float _ => .ok (TypedExpr.nonNull .float64)
    | .string _ => .ok (TypedExpr.nonNull .varchar)
    | .bytes _ => .ok (TypedExpr.nonNull .varbinary)
    -- Identifiers
    | .identifier ident => checkColumn iter ident.value none scope
    | .compoundIdentifier parts =>
      match parts with
      | [p] => checkColumn iter p.value none scope
      | [t, c] => checkColumn iter c.value (some t.value) scope
      | ps =>
        -- longer paths: last as column, second-to-last as table (an empty
        -- list cannot be produced by the parser; the source would index out
        -- of bounds there)
        match ps.getLast?, ps.dropLast.getLast? with
        | some c, some t => checkColumn iter c.value (some t.value) scope
        | _, _ => .error (.other "empty compound identifier")
    -- Operators
    | .binaryOp op l r => checkBinaryOp fuel op l r scope
    | .unaryOp op e2 => checkUnaryOp fuel op e2 scope
    -- Comparisons
    | .between e2 low high _ =>
      bindE (checkExpr fuel e2 scope) fun _ =>
      bindE (checkExpr fuel low scope) fun _ =>
      bindE (checkExpr fuel high scope) fun _ =>
      .ok (TypedExpr.nonNull .bool)
    | .inExpr e2 list _ =>
      bindE (checkExpr fuel e2 scope) fun _ =>
      bindE (checkInList fuel list scope) fun _ =>
      .ok (TypedExpr.nonNull .bool)
    | .like e2 pattern _ _ =>
      bindE (checkExpr fuel e2 scope) fun _ =>
      bindE (checkExpr fuel pattern scope) fun _ =>
      .ok (TypedExpr.nonNull .bool)
    | .isExpr _ _ _ => .ok (TypedExpr.nonNull .bool)
    | .isDistinct _ _ _ => .ok (TypedExpr.nonNull .bool)
    -- Functions
    | .function f => checkFunction fuel f scope
    | .aggregate agg => checkAggregate fuel agg scope
    | .windowFunction wf => checkWindowFunction fuel wf scope
    -- Type operations (the cast operand is not checked by the source)
    | .cast _ dataType _ => .ok (TypedExpr.mkNullable (convertDataType dataType))
    | .extract _ _ => .ok (TypedExpr.mkNullable .int64)
    -- Conditional (operands and WHEN conditions are not checked by the
    -- source: only branch results and the ELSE expression are)
    | .caseExpr _ conditions elseResult =>
      bindE (caseFold fuel conditions SqlType.unknown scope) fun rt =>
      match elseResult with
      | some elseExpr =>
        bindE (checkExpr fuel elseExpr scope) fun typed =>
        .ok (TypedExpr.mkNullable
          (match rt.commonSupertype typed.dataType with
            | some common => common
            | none => rt))
      | none => .ok (TypedExpr.mkNullable rt)
    | .ifExpr _ thenExpr elseExpr =>
      bindE (checkExpr fuel thenExpr scope) fun thenTyped =>
      bindE (checkExpr fuel elseExpr scope) fun elseTyped =>
      .ok (TypedExpr.mkNullable
        ((thenTyped.dataType.commonSupertype elseTyped.dataType).getD .unknown))
    | .coalesce exprs =>
      bindE (coalesceFold fuel exprs SqlType.unknown scope) fun rt =>
      .ok (TypedExpr.mkNullable rt)
    | .nullif left _ =>
      bindE (checkExpr fuel left scope) fun typed =>
      .ok (TypedExpr.mkNullable typed.dataType)
    | .ifNull e2 _ =>
      bindE (checkExpr fuel e2 scope) fun typed =>
      .ok (TypedExpr.mkNullable typed.dataType)
    -- Arrays and structs (only the first array element is inspected)
    | .array elementType elements =>
      match elementType with
      | some et => .ok (TypedExpr.nonNull (.array (convertDataType et)))
      | none =>
        match elements with
        | first :: _ =>
          bindE (checkExpr fuel first scope) fun t =>
          .ok (TypedExpr.nonNull (.array t.dataType))
        | [] => .ok (TypedExpr.nonNull (.array .unknown))
    | .struct fields =>
      bindE (checkStructFields fuel fields scope) fun sf =>
      .ok (TypedExpr.nonNull (.struct sf))
    -- Subqueries
    | .subquery => .ok (TypedExpr.mkNullable .unknown)
    | .existsExpr _ => .ok (TypedExpr.nonNull .bool)
    | .inSubquery _ _ => .ok (TypedExpr.nonNull .bool)
    | .subqueryOp _ _ _ => .ok (TypedExpr.nonNull .bool)
    -- Other
    | .parameter _ => .ok (TypedExpr.mkNullable .unknown)
    | .arraySubscript array _ =>
      bindE (checkExpr fuel array scope) fun typed =>
      .ok (TypedExpr.mkNullable
        (match typed.dataType with
          | .array elem => elem
          | _ => .unknown))
    | .safeArraySubscript array _ _ =>
      bindE (checkExpr fuel array scope) fun typed =>
      .ok (TypedExpr.mkNullable
        (match typed.dataType with
          | .array elem => elem
          | _ => .unknown))
    | .fieldAccess e2 field =>
      bindE (checkExpr fuel e2 scope) fun typed =>
      match typed.dataType with
      | .struct fields =>
        match findStructField fields field.value with
        | some ft => .ok (TypedExpr.mkNullable ft)
        | none => .error (.columnNotFound field.value none)
      | .json => .ok (TypedExpr.mkNullable .json)
      | _ => .error (.columnNotFound field.value none)
    | .jsonSubscript e2 _ =>
      bindE (checkExpr fuel e2 scope) fun _ =>
      .ok (TypedExpr.mkNullable .json)
    | .interval _ _ => .ok (TypedExpr.nonNull .interval)
    | .typedLiteral dataType _ =>
      .ok (TypedExpr.nonNull (typedLiteralType dataType))
    | .parenthesized inner => checkExpr fuel inner scope
    | .row exprs =>
      bindE (checkRowExprs fuel exprs 0 scope) fun sf =>
      .ok (TypedExpr.nonNull (.struct sf))

/-- Embeds `TypeChecker::check_binary_op`. -/
def checkBinaryOp (fuel : Nat) (op : BinaryOp) (l r : Expr) (scope : Scope) :
    Except AnalyzerError TypedExpr :=
  match fuel with
  | 0 => .error (.other "recursion limit")
  | fuel + 1 =>
    bindE (checkExpr fuel l scope) fun leftTyped =>
    bindE (checkExpr fuel r scope) fun rightTyped =>
    let resultType :=
      match op with
      -- Comparison operators return Bool
      | .eq | .notEq | .lt | .ltEq | .gt | .gtEq => SqlType.bool
      -- Logical operators
      | .and | .or => SqlType.bool
      -- Arithmetic operators
      | .plus | .minus | .multiply | .divide | .modulo =>
        (leftTyped.dataType.commonSupertype rightTyped.dataType).getD .float64
      -- String concatenation
      | .concat => .varchar
      -- Bitwise operators
      | .bitwiseAnd | .bitwiseOr | .bitwiseXor | .leftShift
      | .rightShift => .int64
    .ok { dataType := resultType,
          nullable := leftTyped.nullable || rightTyped.nullable,
          containsAggregate :=
            leftTyped.containsAggregate || rightTyped.containsAggregate,
          containsWindow :=
            leftTyped.containsWindow || rightTyped.containsWindow }

/-- Embeds `TypeChecker::check_unary_op`. -/
def checkUnaryOp (fuel : Nat) (op : UnaryOp) (e : Expr) (scope : Scope) :
    Except AnalyzerError TypedExpr :=
  match fuel with
  | 0 => .error (.other "recursion limit")
  | fuel + 1 =>
    bindE (checkExpr fuel e scope) fun typed =>
    let resultType :=
      match op with
      | .not => SqlType.bool
      | .plus | .minus => typed.dataType
      | .bitwiseNot => .int64
    .ok { dataType := resultType, nullable := typed.nullable,
          containsAggregate := typed.containsAggregate,
          containsWindow := typed.containsWindow }

/-- Embeds `TypeChecker::check_function`. -/
def checkFunction (fuel : Nat) (f : FunctionCall) (scope : Scope) :
    Except AnalyzerError TypedExpr :=
  match fuel with
  | 0 => .error (.other "recursion limit")
  | fuel + 1 =>
    match f with
    | .mk name args _ _ _ _ =>
      let funcName := (name.parts.getLast?.map fun i => strToUpper i.value).getD ""
      let nameParts := name.parts.map fun i => i.value
      match cat.resolveFunction nameParts with
      | none => .error (.functionNotFound funcName)
      | some sig =>
        let argCount := args.length
        if !sig.acceptsArgCount argCount then
          .error (.wrongArgumentCount funcName sig.minArgs sig.maxArgs argCount)
        else
          bindE (checkFnArgs fuel args scope) fun _ =>
          .ok { dataType := sig.returnType, nullable := true,
                containsAggregate := sig.isAggregate,
                containsWindow := sig.isWindow }

/-- Embeds `TypeChecker::check_aggregate` (no argument-count check). -/
def checkAggregate (fuel : Nat) (agg : AggregateCall) (scope : Scope) :
    Except AnalyzerError TypedExpr :=
  match fuel with
  | 0 => .error (.other "recursion limit")
  | fuel + 1 =>
    match agg with
    | .mk (.mk name args _ _ _ _) _ =>
      let funcName := (name.parts.getLast?.map fun i => strToUpper i.value).getD ""
      let nameParts := name.parts.map fun i => i.value
      match cat.resolveFunction nameParts with
      | none => .error (.functionNotFound funcName)
      | some sig =>
        bindE (checkFnArgs fuel args scope) fun _ =>
        .ok { dataType := sig.returnType, nullable := true,
              containsAggregate := true, containsWindow := false }

/-- Embeds `TypeChecker::check_window_function`. -/
def checkWindowFunction (fuel : Nat) (wf : WindowFunctionCall) (scope : Scope) :
    Except AnalyzerError TypedExpr :=
  match fuel with
  | 0 => .error (.other "recursion limit")
  | fuel + 1 =>
    match wf with
    | .mk (.mk name args _ _ _ _) _ =>
      let funcName := (name.parts.getLast?.map fun i => strToUpper i.value).getD ""
      let nameParts := name.parts.map fun i => i.value
      match cat.resolveFunction nameParts with
      | none => .error (.functionNotFound funcName)
      | some sig =>
        bindE (checkFnArgs fuel args scope) fun _ =>
        .ok { dataType := sig.returnType, nullable := true,
              containsAggregate := false, containsWindow := true }

/-- The `InList` dispatch of the `In` arm: a value list is checked
element-wise, a subquery is not analyzed. -/
def checkInList (fuel : Nat) (list : InList) (scope : Scope) :
    Except AnalyzerError Unit :=
  match fuel with
  | 0 => .error (.other "recursion limit")
  | fuel + 1 =>
    match list with
    | .values vs => checkExprs fuel vs scope
    | .subquery => .ok ()

/-- Sequential check of a list of expressions, results discarded (the
`for v in values` loops of `check_expr`). -/
def checkExprs (fuel : Nat) (es : List Expr) (scope : Scope) :
    Except AnalyzerError Unit :=
  match fuel with
  | 0 => .error (.other "recursion limit")
  | fuel + 1 =>
    match es with
    | [] => .ok ()
    | e :: rest =>
      bindE (checkExpr fuel e scope) fun _ =>
      checkExprs fuel rest scope

/-- The result-type fold of the `Case` arm: each branch result is checked;
Unknown is replaced by the first branch type, otherwise the common
supertype (kept unchanged when there is none). -/
def caseFold (fuel : Nat) (conds : List CaseWhen) (resultType : SqlType)
    (scope : Scope) : Except AnalyzerError SqlType :=
  match fuel with
  | 0 => .error (.other "recursion limit")
  | fuel + 1 =>
    match conds with
    | [] => .ok resultType
    | .mk _ result :: rest =>
      bindE (checkExpr fuel result scope) fun typed =>
      caseFold fuel rest
        (if resultType = SqlType.unknown then typed.dataType
         else
           match resultType.commonSupertype typed.dataType with
           | some common => common
           | none => resultType)
        scope

/-- The result-type fold of the `Coalesce` arm (same update rule). -/
def coalesceFold (fuel : Nat) (exprs : List Expr) (resultType : SqlType)
    (scope : Scope) : Except AnalyzerError SqlType :=
  match fuel with
  | 0 => .error (.other "recursion limit")
  | fuel + 1 =>
    match exprs with
    | [] => .ok resultType
    | e :: rest =>
      bindE (checkExpr fuel e scope) fun typed =>
      coalesceFold fuel rest
        (if resultType = SqlType.unknown then typed.dataType
         else
           match resultType.commonSupertype typed.dataType with
           | some common => common
           | none => resultType)
        scope

/-- The field loop of the `Struct` arm. -/
def checkStructFields (fuel : Nat) (fields : List StructFieldLit) (scope : Scope) :
    Except AnalyzerError SqlStructFields :=
  match fuel with
  | 0 => .error (.other "recursion limit")
  | fuel + 1 =>
    match fields with
    | [] => .ok .nil
    | .mk name value :: rest =>
      bindE (checkExpr fuel value scope) fun typed =>
      bindE (checkStructFields fuel rest scope) fun sf =>
      .ok (.cons (name.map fun i => i.value) typed.dataType sf)

/-- The element loop of the `Row` arm (fields named `_0`, `_1`, …). -/
def checkRowExprs (fuel : Nat) (exprs : List Expr) (i : Nat) (scope : Scope) :
    Except AnalyzerError SqlStructFields :=
  match fuel with
  | 0 => .error (.other "recursion limit")
  | fuel + 1 =>
    match exprs with
    | [] => .ok .nil
    | e :: rest =>
      bindE (checkExpr fuel e scope) fun typed =>
      bindE (checkRowExprs fuel rest (i + 1) scope) fun sf =>
      .ok (.cons (some ("_" ++ toString i)) typed.dataType sf)

/-- The argument loop shared by `check_function`, `check_aggregate` and
`check_window_function`: only `Unnamed` arguments are type-checked. -/
def checkFnArgs (fuel : Nat) (args : List FunctionArg) (scope : Scope) :
    Except AnalyzerError Unit :=
  match fuel with
  | 0 => .error (.other "recursion limit")
  | fuel + 1 =>
    match args with
    | [] => .ok ()
    | .unnamed e :: rest =>
      bindE (checkExpr fuel e scope) fun _ =>
      checkFnArgs fuel rest scope
    | _ :: rest => checkFnArgs fuel rest scope

end

end TypeCheck

end Analyzer


/-! ## Analyzer (`src/analyzer/mod.rs`)

The `Analyzer`'s mutable state is its scope stack and error list; the
embedding passes it explicitly (head of `scopes` = top of the `Vec`).
`analyze_expr` and friends take `&self` in the source — they are pure and
return plain `Except` values; the statement-walking functions return the
result paired with the updated state.  Rust's `?` is the explicit match. -/

namespace Analyzer

open Ast

/-- Embeds `OutputColumn`. -/
structure OutputColumn where
  name : String
  dataType : SqlType
  nullable : Bool
  deriving DecidableEq, Repr

/-- Embeds `AnalyzedQuery`. -/
structure AnalyzedQuery where
  columns : List OutputColumn
  hasAggregation : Bool
  hasWindowFunctions : Bool
  deriving DecidableEq, Repr

/-- Embeds the `Analyzer`'s mutable fields (the catalog, immutable, is the
section parameter `cat`). -/
structure AnalyzerState where
  scopes : List Scope
  errors : List AnalyzerError
  deriving DecidableEq, Repr

/-- Embeds `Analyzer::with_catalog`'s state initialization:
`scopes: vec![Scope::new()], errors: vec![]`. -/
def AnalyzerState.initial : AnalyzerState :=
  { scopes := [Scope.new], errors := [] }

/-- Embeds `Analyzer::push_scope`. -/
def pushScope (s : AnalyzerState) : AnalyzerState :=
  { s with scopes := Scope.new :: s.scopes }

/-- Embeds `Analyzer::pop_scope` (`Vec::pop`). -/
def popScope (s : AnalyzerState) : AnalyzerState :=
  { s with scopes := s.scopes.tail }

/-- Embeds `Analyzer::current_scope` (the source `.expect`s a non-empty
stack; the embedded runs never pop the base scope). -/
def currentScope (s : AnalyzerState) : Scope :=
  s.scopes.headD Scope.new

/-- Embeds `Analyzer::current_scope_mut` updates. -/
def modifyCurrentScope (f : Scope → Scope) (s : AnalyzerState) :
    AnalyzerState :=
  match s.scopes with
  | top :: rest => { s with scopes := f top :: rest }
  | [] => s

/-- Embeds `Analyzer::lookup_cte`: search all scopes from the top of the
stack down. -/
def lookupCteStack (scopes : List Scope) (name : String) : Option CteRef :=
  match scopes with
  | [] => none
  | sc :: rest =>
    match sc.lookupCte name with
    | some cte => some cte
    | none => lookupCteStack rest name

/-- Embeds `Analyzer::table_schema_to_columns`
(`column_schema_to_sql_type` is the column's own type). -/
def tableSchemaToColumns (schema : Catalog.TableSchema) (alias_ : String) :
    List ScopeColumn :=
  schema.columns.enum.map fun p =>
    ScopeColumn.mk p.2.name p.2.dataType p.2.nullable alias_ p.1

/-- Embeds `Analyzer::expr_to_name`. -/
def exprToName (e : Expr) : Option String :=
  match e with
  | .identifier ident => some ident.value
  | .compoundIdentifier parts => parts.getLast?.map fun i => i.value
  | .function (.mk name _ _ _ _ _) => name.parts.getLast?.map fun i => i.value
  | .aggregate (.mk (.mk name _ _ _ _ _) _) =>
    name.parts.getLast?.map fun i => i.value
  | .windowFunction (.mk (.mk name _ _ _ _ _) _) =>
    name.parts.getLast?.map fun i => i.value
  | _ => none

/-- The column list `*` expands to: the columns of the given tables in the
given order (the nested `for` loops of the `Wildcard` arm of
`analyze_select`). -/
def wildcardColumns (tables : List ScopeTable) : List OutputColumn :=
  tables.flatMap fun t =>
    t.columns.map fun col => OutputColumn.mk col.name col.dataType col.nullable

section Analyze

variable (cat : Catalog.Catalog)
variable (iter : List (String × ScopeTable) → List ScopeTable)

/-- Embeds `Analyzer::analyze_expr` (pure: builds a `TypeChecker` over the
catalog and checks against the current scope). -/
def analyzeExpr (fuel : Nat) (e : Expr) (s : AnalyzerState) :
    Except AnalyzerError TypedExpr :=
  checkExpr cat iter fuel e (currentScope s)

/-- Embeds `Analyzer::analyze_expr_expect_bool`. -/
def analyzeExprExpectBool (fuel : Nat) (e : Expr) (s : AnalyzerState) :
    Except AnalyzerError Unit :=
  match analyzeExpr cat iter fuel e s with
  | .error err => .error err
  | .ok typed =>
    if typed.dataType ≠ SqlType.bool ∧ typed.dataType ≠ SqlType.unknown ∧
        typed.dataType ≠ SqlType.any then
      .error (.typeMismatch .bool typed.dataType "condition")
    else .ok ()

/-- Embeds `Analyzer::analyze_expr_expect_int`. -/
def analyzeExprExpectInt (fuel : Nat) (e : Expr) (s : AnalyzerState) :
    Except AnalyzerError Unit :=
  match analyzeExpr cat iter fuel e s with
  | .error err => .error err
  | .ok typed =>
    if ¬ typed.dataType.isInteger ∧ typed.dataType ≠ SqlType.unknown ∧
        typed.dataType ≠ SqlType.any then
      .error (.typeMismatch .int64 typed.dataType "LIMIT/OFFSET")
    else .ok ()

/-- The ORDER BY loop of `analyze_query_internal` (each expression checked
against the current scope; pure). -/
def analyzeOrderBy (fuel : Nat) (items : List OrderByExpr) (s : AnalyzerState) :
    Except AnalyzerError Unit :=
  match items with
  | [] => .ok ()
  | .mk e _ _ :: rest =>
    match analyzeExpr cat iter fuel e s with
    | .error err => .error err
    | .ok _ => analyzeOrderBy fuel rest s

/-- The LIMIT/OFFSET checks of `analyze_query_internal` (pure). -/
def analyzeLimit (fuel : Nat) (limit : Option LimitClause) (s : AnalyzerState) :
    Except AnalyzerError Unit :=
  match limit with
  | some (.mk count offset) =>
    match
      (match count with
        | some cexp => analyzeExprExpectInt cat iter fuel cexp s
        | none => .ok ()) with
    | .error err => .error err
    | .ok _ =>
      match offset with
      | some oexp => analyzeExprExpectInt cat iter fuel oexp s
      | none => .ok ()
  | none => .ok ()

/-- The GROUP BY recording loop of `analyze_select`: bare identifiers among
`GroupByItem::Expr` items are pushed onto the scope's
`group_by_columns`. -/
def recordGroupBy (groupBy : Option GroupByClause) (s : AnalyzerState) :
    AnalyzerState :=
  match groupBy with
  | some (.mk items) =>
    items.foldl
      (fun st item =>
        match item with
        | .expr (.identifier ident) =>
          modifyCurrentScope
            (fun sc =>
              { sc with groupByColumns := sc.groupByColumns ++ [ident.value] })
            st
        | _ => st)
      s
  | none => s

/-- The per-table replacement loop of the `WildcardReplace` arm: each
column is either replaced (its expression type-checked in scope) or kept. -/
def replaceColsForTable (fuel : Nat) (cols : List ScopeColumn)
    (replaceMap : List (String × Expr)) (s : AnalyzerState) :
    Except AnalyzerError (List OutputColumn) :=
  match cols with
  | [] => .ok []
  | col :: rest =>
    match assocGet (strToLower col.name) replaceMap with
    | some replaceExpr =>
      match analyzeExpr cat iter fuel replaceExpr s with
      | .error err => .error err
      | .ok typed =>
        match replaceColsForTable fuel rest replaceMap s with
        | .error err => .error err
        | .ok others =>
          .ok (OutputColumn.mk col.name typed.dataType typed.nullable :: others)
    | none =>
      match replaceColsForTable fuel rest replaceMap s with
      | .error err => .error err
      | .ok others =>
        .ok (OutputColumn.mk col.name col.dataType col.nullable :: others)

/-- The table loop of the `WildcardReplace` arm. -/
def replaceColsForTables (fuel : Nat) (tables : List ScopeTable)
    (replaceMap : List (String × Expr)) (s : AnalyzerState) :
    Except AnalyzerError (List OutputColumn) :=
  match tables with
  | [] => .ok []
  | t :: rest =>
    match replaceColsForTable cat iter fuel t.columns replaceMap s with
    | .error err => .error err
    | .ok cols =>
      match replaceColsForTables fuel rest replaceMap s with
      | .error err => .error err
      | .ok others => .ok (cols ++ others)

/-- Table-list resolution shared by the `WildcardExcept` and
`WildcardReplace` arms: a qualified wildcard names one table, an
unqualified one takes every table in scope. -/
def wildcardTables (qualifier : Option ObjectName) (s : AnalyzerState) :
    Except AnalyzerError (List ScopeTable) :=
  match qualifier with
  | some q =>
    let tableName := (q.parts.getLast?.map fun i => i.value).getD ""
    match (currentScope s).lookupTable tableName with
    | some t => .ok [t]
    | none => .error (.tableNotFound tableName)
  | none => .ok (Scope.allTables iter (currentScope s))

/-- The projection loop of `analyze_select` (pure: it only reads the
scope), accumulating output columns and the aggregation/window flags. -/
def analyzeProjection (fuel : Nat) (items : List SelectItem)
    (columns : List OutputColumn) (hasAgg hasWin : Bool)
    (s : AnalyzerState) :
    Except AnalyzerError (List OutputColumn × Bool × Bool) :=
  match items with
  | [] => .ok (columns, hasAgg, hasWin)
  | .exprItem expr alias_ :: rest =>
    match analyzeExpr cat iter fuel expr s with
    | .error err => .error err
    | .ok typed =>
      let name :=
        match alias_ with
        | some a => a.value
        | none =>
          match exprToName expr with
          | some n => n
          | none => "_col" ++ toString columns.length
      analyzeProjection fuel rest
        (columns ++ [OutputColumn.mk name typed.dataType typed.nullable])
        (hasAgg || typed.containsAggregate) (hasWin || typed.containsWindow) s
  | .wildcard :: rest =>
    analyzeProjection fuel rest
      (columns ++ wildcardColumns (Scope.allTables iter (currentScope s)))
      hasAgg hasWin s
  | .qualifiedWildcard qualifier :: rest =>
    let tableName := (qualifier.parts.getLast?.map fun i => i.value).getD ""
    match (currentScope s).lookupTable tableName with
    | some t =>
      analyzeProjection fuel rest (columns ++ wildcardColumns [t]) hasAgg hasWin s
    | none => .error (.tableNotFound tableName)
  | .wildcardExcept qualifier exceptCols :: rest =>
    match wildcardTables iter qualifier s with
    | .error err => .error err
    | .ok tableList =>
      let exceptNames := exceptCols.map fun i => strToLower i.value
      let newCols := tableList.flatMap fun t =>
        t.columns.filterMap fun col =>
          if exceptNames.contains (strToLower col.name) then none
          else some (OutputColumn.mk col.name col.dataType col.nullable)
      analyzeProjection fuel rest (columns ++ newCols) hasAgg hasWin s
  | .wildcardReplace qualifier replace :: rest =>
    match wildcardTables iter qualifier s with
    | .error err => .error err
    | .ok tableList =>
      let replaceMap := replace.foldl
        (fun m ri =>
          match ri with
          | .mk e ident => assocInsert (strToLower ident.value) e m)
        []
      match replaceColsForTables cat iter fuel tableList replaceMap s with
      | .error err => .error err
      | .ok newCols =>
        analyzeProjection fuel rest (columns ++ newCols) hasAgg hasWin s

/-- The optional-WHERE check of `analyze_select` (pure). -/
def checkWhere (fuel : Nat) (whereClause : Option Expr) (s : AnalyzerState) :
    Except AnalyzerError Unit :=
  match whereClause with
  | some w => analyzeExprExpectBool cat iter fuel w s
  | none => .ok ()

/-- The HAVING handling of `analyze_select` (pure): requires GROUP BY or
aggregation, then checks the clause as Bool. -/
def checkHaving (fuel : Nat) (having : Option Expr) (hasGroupBy hasAgg : Bool)
    (s : AnalyzerState) : Except AnalyzerError Unit :=
  match having with
  | some hv =>
    if !hasGroupBy && !hasAgg then .error .havingWithoutGroupBy
    else analyzeExprExpectBool cat iter fuel hv s
  | none => .ok ()

mutual

/-- Embeds `Analyzer::analyze_query_internal`: WITH clause first, then the
body, then ORDER BY, then LIMIT/OFFSET (both checked against whatever
scope is current after the body has been analyzed).  As in the type
checker, the block recurses on a step count `fuel` so that the mutual
recursion is structural; the sources' recursion is bounded by the query's
size, and every use below passes enough fuel. -/
def analyzeQueryInternal (fuel : Nat) (q : Query) (s : AnalyzerState) :
    Except AnalyzerError AnalyzedQuery × AnalyzerState :=
  match fuel with
  | 0 => (.error (.other "recursion limit"), s)
  | fuel + 1 =>
    match q with
    | .mk withClause body orderBy limit =>
      bindS (analyzeWith fuel withClause s) fun _ s1 =>
      bindS (analyzeQueryBody fuel body s1) fun result s2 =>
      match analyzeOrderBy cat iter fuel orderBy s2 with
      | .error e => (.error e, s2)
      | .ok _ =>
        match analyzeLimit cat iter fuel limit s2 with
        | .error e => (.error e, s2)
        | .ok _ => (.ok result, s2)

/-- The optional-WITH dispatch of `analyze_query_internal`. -/
def analyzeWith (fuel : Nat) (withClause : Option WithClause) (s : AnalyzerState) :
    Except AnalyzerError Unit × AnalyzerState :=
  match fuel with
  | 0 => (.error (.other "recursion limit"), s)
  | fuel + 1 =>
    match withClause with
    | some (.mk recursive ctes) => analyzeWithCtes fuel recursive ctes s
    | none => (.ok (), s)

/-- Embeds `Analyzer::analyze_with_clause`: for each CTE in order, reject a
duplicate name in the current scope, analyze its body, then register it in
the current scope with its output columns. -/
def analyzeWithCtes (fuel : Nat) (recursive : Bool) (ctes : List Cte)
    (s : AnalyzerState) : Except AnalyzerError Unit × AnalyzerState :=
  match fuel with
  | 0 => (.error (.other "recursion limit"), s)
  | fuel + 1 =>
    match ctes with
    | [] => (.ok (), s)
    | .mk nameIdent _ cteQuery :: rest =>
      if (currentScope s).hasCte nameIdent.value then
        (.error (.duplicateCte nameIdent.value), s)
      else
        bindS (analyzeQueryInternal fuel cteQuery s) fun cteResult s1 =>
        analyzeWithCtes fuel recursive rest
          (modifyCurrentScope
            (fun sc => sc.addCte
              ⟨nameIdent.value,
               cteResult.columns.enum.map fun p =>
                 ScopeColumn.mk p.2.name p.2.dataType p.2.nullable
                   nameIdent.value p.1,
               recursive⟩) s1)

/-- Embeds `Analyzer::analyze_query_body`: SELECT, set operation (column
counts must agree; the left result is returned), or parenthesized query. -/
def analyzeQueryBody (fuel : Nat) (body : QueryBody) (s : AnalyzerState) :
    Except AnalyzerError AnalyzedQuery × AnalyzerState :=
  match fuel with
  | 0 => (.error (.other "recursion limit"), s)
  | fuel + 1 =>
    match body with
    | .select sel => analyzeSelect fuel sel s
    | .setOperation _ _ left right =>
      bindS (analyzeQueryBody fuel left s) fun leftResult s1 =>
      bindS (analyzeQueryBody fuel right s1) fun rightResult s2 =>
      if leftResult.columns.length ≠ rightResult.columns.length then
        (.error (.setOperationColumnMismatch leftResult.columns.length
          rightResult.columns.length), s2)
      else (.ok leftResult, s2)
    | .parenthesized q => analyzeQueryInternal fuel q s

/-- Embeds `Analyzer::analyze_select`: push a scope, bind FROM tables,
record GROUP BY, check WHERE, walk the projection, check HAVING, pop the
scope. -/
def analyzeSelect (fuel : Nat) (sel : Select) (s : AnalyzerState) :
    Except AnalyzerError AnalyzedQuery × AnalyzerState :=
  match fuel with
  | 0 => (.error (.other "recursion limit"), s)
  | fuel + 1 =>
    match sel with
    | .mk _ _ projection fromClause whereClause groupBy having _ _ =>
      bindS (analyzeFrom fuel fromClause (pushScope s)) fun _ s1 =>
      let s3 := recordGroupBy groupBy
        (modifyCurrentScope (fun sc => { sc with hasGroupBy := groupBy.isSome })
          s1)
      match checkWhere cat iter fuel whereClause s3 with
      | .error e => (.error e, s3)
      | .ok _ =>
        match analyzeProjection cat iter fuel projection [] false false s3 with
        | .error e => (.error e, s3)
        | .ok (columns, hasAgg, hasWin) =>
          match checkHaving cat iter fuel having groupBy.isSome hasAgg s3 with
          | .error e => (.error e, s3)
          | .ok _ =>
            (.ok { columns, hasAggregation := hasAgg,
                   hasWindowFunctions := hasWin }, popScope s3)

/-- The optional-FROM dispatch of `analyze_select`. -/
def analyzeFrom (fuel : Nat) (fromClause : Option FromClause) (s : AnalyzerState) :
    Except AnalyzerError Unit × AnalyzerState :=
  match fuel with
  | 0 => (.error (.other "recursion limit"), s)
  | fuel + 1 =>
    match fromClause with
    | some (.mk tables) => analyzeTableRefs fuel tables s
    | none => (.ok (), s)

/-- The FROM-clause loop of `analyze_select`. -/
def analyzeTableRefs (fuel : Nat) (ts : List TableRef) (s : AnalyzerState) :
    Except AnalyzerError Unit × AnalyzerState :=
  match fuel with
  | 0 => (.error (.other "recursion limit"), s)
  | fuel + 1 =>
    match ts with
    | [] => (.ok (), s)
    | t :: rest =>
      bindS (analyzeTableRef fuel t s) fun _ s1 =>
      analyzeTableRefs fuel rest s1

/-- Embeds `Analyzer::analyze_table_ref`. -/
def analyzeTableRef (fuel : Nat) (t : TableRef) (s : AnalyzerState) :
    Except AnalyzerError Unit × AnalyzerState :=
  match fuel with
  | 0 => (.error (.other "recursion limit"), s)
  | fuel + 1 =>
    match t with
    | .table name alias_ _ =>
      let nameParts := name.parts.map fun i => i.value
      let cteName := nameParts.getLast?.getD ""
      match lookupCteStack s.scopes cteName with
      | some cte =>
        let tableAlias := (alias_.map fun a => a.name.value).getD cteName
        (.ok (), modifyCurrentScope
          (fun sc => sc.addTable
            ⟨tableAlias, nameParts,
             cte.columns.map fun c =>
               ScopeColumn.mk c.name c.dataType c.nullable tableAlias
                 c.columnIndex⟩) s)
      | none =>
        match cat.resolveTable nameParts with
        | none => (.error (.tableNotFound cteName), s)
        | some tableSchema =>
          let tableAlias := (alias_.map fun a => a.name.value).getD
            tableSchema.name
          (.ok (), modifyCurrentScope
            (fun sc => sc.addTable
              ⟨tableAlias, nameParts,
               tableSchemaToColumns tableSchema tableAlias⟩) s)
    | .subquery query alias_ =>
      bindS (analyzeQueryInternal fuel query s) fun result s1 =>
      let aliasName := (alias_.map fun a => a.name.value).getD "_subquery"
      (.ok (), modifyCurrentScope
        (fun sc => sc.addTable
          ⟨aliasName, ["_subquery"],
           result.columns.enum.map fun p =>
             ScopeColumn.mk p.2.name p.2.dataType p.2.nullable aliasName
               p.1⟩) s1)
    | .join left right _ condition =>
      bindS (analyzeTableRef fuel left s) fun _ s1 =>
      bindS (analyzeTableRef fuel right s1) fun _ s2 =>
      match condition with
      | some (.on e) =>
        match analyzeExprExpectBool cat iter fuel e s2 with
        | .error err => (.error err, s2)
        | .ok _ => (.ok (), s2)
      | _ => (.ok (), s2)
    | .unnest expr alias_ _ _ =>
      match analyzeExpr cat iter fuel expr s with
      | .error e => (.error e, s)
      | .ok typed =>
        let elemType :=
          match typed.dataType with
          | .array elem => elem
          | _ => SqlType.unknown
        let aliasName := (alias_.map fun a => a.name.value).getD "_unnest"
        (.ok (), modifyCurrentScope
          (fun sc => sc.addTable
            ⟨aliasName, ["_unnest"],
             [ScopeColumn.mk "value" elemType true aliasName 0]⟩) s)
    | .parenthesized inner => analyzeTableRef fuel inner s
    | .tableFunction _ _ _ =>
      -- table functions would need special handling (source no-op)
      (.ok (), s)

end

/-- Embeds `Analyzer::analyze_query_result`: clear the accumulated errors,
then analyze (the public wrapper converts the error type without adding
information; that conversion is omitted). -/
def analyzeQueryResult (fuel : Nat) (q : Query) (s : AnalyzerState) :
    Except AnalyzerError AnalyzedQuery × AnalyzerState :=
  analyzeQueryInternal cat iter fuel q { s with errors := [] }

end Analyze

end Analyzer


/-! ## Concrete fixtures

The catalog of the source's own analyzer tests (`setup_test_catalog`):
`users(id BIGINT NOT NULL, name VARCHAR, age BIGINT, email VARCHAR)` and
`orders(id BIGINT NOT NULL, user_id BIGINT, amount DOUBLE PRECISION,
created_at TIMESTAMP)`, with the `COUNT` builtin. -/

open Analyzer in
/-- Short-hand for an unquoted identifier. -/
def ident (s : String) : Ast.Ident := ⟨s, false⟩

/-- The `users` test table. -/
def usersTable : Catalog.TableSchema :=
  { name := "users",
    columns := [
      (Catalog.ColumnSchema.new "id" .int64).notNull,
      Catalog.ColumnSchema.new "name" .varchar,
      Catalog.ColumnSchema.new "age" .int64,
      Catalog.ColumnSchema.new "email" .varchar] }

/-- The `orders` test table. -/
def ordersTable : Catalog.TableSchema :=
  { name := "orders",
    columns := [
      (Catalog.ColumnSchema.new "id" .int64).notNull,
      Catalog.ColumnSchema.new "user_id" .int64,
      Catalog.ColumnSchema.new "amount" .float64,
      Catalog.ColumnSchema.new "created_at" .timestamp] }

/-- The `COUNT` builtin (first entry of `register_builtins`). -/
def countSignature : Catalog.FunctionSignature :=
  Catalog.FunctionSignature.aggregate "COUNT" .int64

/-- The test catalog: both tables under their single-part names (the
in-memory catalog's default schema), functions resolved by uppercased last
name part as in `MemoryCatalog::resolve_function`. -/
def testCatalog : Catalog.Catalog :=
  { resolveTable := fun parts =>
      match parts with
      | ["users"] => some usersTable
      | ["orders"] => some ordersTable
      | _ => none,
    resolveFunction := fun parts =>
      match parts.getLast?.map (fun p => strToUpper p) with
      | some "COUNT" => some countSignature
      | _ => none }

/-- A catalog with no tables and no functions. -/
def emptyCatalog : Catalog.Catalog :=
  { resolveTable := fun _ => none, resolveFunction := fun _ => none }

/-- The AST of `SELECT id FROM users`. -/
def selectIdFromUsers : Ast.Select :=
  .mk none none [.exprItem (.identifier (ident "id")) none]
    (some (.mk [.table (.mk [ident "users"]) none []]))
    none none none none []

/-- The AST of `SELECT id, name FROM users`. -/
def selectIdNameFromUsers : Ast.Select :=
  .mk none none
    [.exprItem (.identifier (ident "id")) none,
     .exprItem (.identifier (ident "name")) none]
    (some (.mk [.table (.mk [ident "users"]) none []]))
    none none none none []

/-- The AST of `SELECT id FROM users ORDER BY id`. -/
def c2Query : Ast.Query :=
  .mk none (.select selectIdFromUsers)
    [.mk (.identifier (ident "id")) none none] none

/-- C2: the spec's analysis algorithm type-checks ORDER BY (step 8) before
popping the SELECT scope (step 9), so `SELECT id FROM users ORDER BY id`
analyzes successfully.  The code instead analyzes ORDER BY in
`analyze_query_internal`, after `analyze_select` has already popped its
scope: the same query fails with `ColumnNotFound("id")`.  This theorem
evaluates the embedded analyzer at that failing input. -/
theorem c2_order_by_after_scope_pop :
    (Analyzer.analyzeQueryResult testCatalog Analyzer.valuesInOrder 100
      c2Query Analyzer.AnalyzerState.initial).1 =
      .error (.columnNotFound "id" none) := by
  rfl



/-! ## Claim C3: analyzer state across top-level calls -/

/-- The AST of `SELECT id FROM c`. -/
def selectIdFromC : Ast.Select :=
  .mk none none [.exprItem (.identifier (ident "id")) none]
    (some (.mk [.table (.mk [ident "c"]) none []]))
    none none none none []

/-- The AST of `WITH c AS (SELECT id FROM users) SELECT id FROM c`. -/
def c3QueryWith : Ast.Query :=
  .mk (some (.mk false [.mk (ident "c") []
    (.mk none (.select selectIdFromUsers) [] none)]))
    (.select selectIdFromC) [] none

/-- The AST of `SELECT id FROM c` as a stand-alone query. -/
def c3QueryFromC : Ast.Query :=
  .mk none (.select selectIdFromC) [] none

/-- C3, counterexample: the CTE `c` registered while analyzing
`WITH c AS (SELECT id FROM users) SELECT id FROM c` stays in the base
scope, so a later top-level call on the state the first call returns
resolves `SELECT id FROM c` through it (first conjunct) — even though
from a fresh analyzer the same statement fails with `TableNotFound`
because no table `c` exists in the catalog (second conjunct).  The scope
stack is therefore not reset between top-level calls. -/
theorem c3_cte_persists_counterexample :
    (Analyzer.analyzeQueryResult testCatalog Analyzer.valuesInOrder 100
        c3QueryFromC
        (Analyzer.analyzeQueryResult testCatalog Analyzer.valuesInOrder 100
          c3QueryWith Analyzer.AnalyzerState.initial).2).1 =
      .ok { columns := [{ name := "id", dataType := .int64,
                          nullable := false }],
            hasAggregation := false, hasWindowFunctions := false } ∧
    (Analyzer.analyzeQueryResult testCatalog Analyzer.valuesInOrder 100
        c3QueryFromC Analyzer.AnalyzerState.initial).1 =
      .error (.tableNotFound "c") :=
  ⟨rfl, rfl⟩


/-- C3 (amended): a top-level `analyze_query_result` call resets only the
accumulated error list — its result is independent of the errors carried
into the call (first conjunct) — while the scope stack persists: after
analyzing a WITH query the analyzer state's scopes differ from the fresh
initial stack, keeping the registered CTE (second conjunct). -/
theorem c3_only_errors_reset :
    (∀ (cat : Catalog.Catalog)
      (iter : List (String × Analyzer.ScopeTable) →
        List Analyzer.ScopeTable)
      (fuel : Nat) (q : Ast.Query) (scopes : List Analyzer.Scope)
      (e1 e2 : List Analyzer.AnalyzerError),
      Analyzer.analyzeQueryResult cat iter fuel q ⟨scopes, e1⟩ =
        Analyzer.analyzeQueryResult cat iter fuel q ⟨scopes, e2⟩) ∧
    (Analyzer.analyzeQueryResult testCatalog Analyzer.valuesInOrder 100
        c3QueryWith Analyzer.AnalyzerState.initial).2.scopes ≠
      Analyzer.AnalyzerState.initial.scopes := by
  constructor
  · intro cat iter fuel q scopes e1 e2
    rfl
  · decide



/-! ## Claim C4: Bool-typed predicate expressions and nullability -/

/-- C4, counterexample: `1 BETWEEN NULL AND 2` has a nullable operand —
`NULL` checks as nullable Unknown (second conjunct) — yet the BETWEEN
expression itself is typed as non-nullable Bool (first conjunct), so its
nullable flag is not the disjunction of the operands' nullable flags. -/
theorem c4_between_nullability_counterexample :
    Analyzer.checkExpr testCatalog Analyzer.valuesInOrder 10
        (.between (.integer 1) .null (.integer 2) false)
        Analyzer.Scope.new =
      .ok { dataType := .bool, nullable := false,
            containsAggregate := false, containsWindow := false } ∧
    Analyzer.checkExpr testCatalog Analyzer.valuesInOrder 10 .null
        Analyzer.Scope.new =
      .ok { dataType := .unknown, nullable := true,
            containsAggregate := false, containsWindow := false } :=
  ⟨rfl, rfl⟩


/-- C4 (amended): comparison and logical binary operators return Bool with
nullability (and the aggregate/window flags) inherited as the disjunction
over the two operands; BETWEEN, LIKE, IN (over a value list or a
subquery), IS, IS DISTINCT FROM, EXISTS, `InSubquery` and the quantified
subquery comparisons (`SubqueryOp`) instead always produce a non-nullable
Bool, discarding operand nullability.  Fuel levels follow the call
structure: the BinaryOp arm dispatches through `check_binary_op` and the
IN-subquery arm through `InList`, each consuming two levels above their
operands. -/
theorem c4_bool_results_nullability :
    ∀ (cat : Catalog.Catalog)
      (iter : List (String × Analyzer.ScopeTable) →
        List Analyzer.ScopeTable)
      (scope : Analyzer.Scope) (fuel : Nat),
    (∀ (op : Ast.BinaryOp) (l r : Ast.Expr) (lt rt : Analyzer.TypedExpr),
      (op = .eq ∨ op = .notEq ∨ op = .lt ∨ op = .ltEq ∨ op = .gt ∨
        op = .gtEq ∨ op = .and ∨ op = .or) →
      Analyzer.checkExpr cat iter fuel l scope = .ok lt →
      Analyzer.checkExpr cat iter fuel r scope = .ok rt →
      Analyzer.checkExpr cat iter (fuel + 2) (.binaryOp op l r) scope =
        .ok { dataType := .bool, nullable := lt.nullable || rt.nullable,
              containsAggregate :=
                lt.containsAggregate || rt.containsAggregate,
              containsWindow := lt.containsWindow || rt.containsWindow }) ∧
    (∀ (e low high : Ast.Expr) (neg : Bool) (t1 t2 t3 : Analyzer.TypedExpr),
      Analyzer.checkExpr cat iter fuel e scope = .ok t1 →
      Analyzer.checkExpr cat iter fuel low scope = .ok t2 →
      Analyzer.checkExpr cat iter fuel high scope = .ok t3 →
      Analyzer.checkExpr cat iter (fuel + 1) (.between e low high neg)
          scope =
        .ok (Analyzer.TypedExpr.nonNull .bool)) ∧
    (∀ (e pat : Ast.Expr) (esc : Option Ast.Expr) (neg : Bool)
      (t1 t2 : Analyzer.TypedExpr),
      Analyzer.checkExpr cat iter fuel e scope = .ok t1 →
      Analyzer.checkExpr cat iter fuel pat scope = .ok t2 →
      Analyzer.checkExpr cat iter (fuel + 1) (.like e pat esc neg) scope =
        .ok (Analyzer.TypedExpr.nonNull .bool)) ∧
    (∀ (e : Ast.Expr) (vs : List Ast.Expr) (neg : Bool)
      (t1 : Analyzer.TypedExpr),
      Analyzer.checkExpr cat iter fuel e scope = .ok t1 →
      Analyzer.checkInList cat iter fuel (.values vs) scope = .ok () →
      Analyzer.checkExpr cat iter (fuel + 1)
          (.inExpr e (.values vs) neg) scope =
        .ok (Analyzer.TypedExpr.nonNull .bool)) ∧
    (∀ (e : Ast.Expr) (neg : Bool) (t1 : Analyzer.TypedExpr),
      Analyzer.checkExpr cat iter (fuel + 1) e scope = .ok t1 →
      Analyzer.checkExpr cat iter (fuel + 2)
          (.inExpr e .subquery neg) scope =
        .ok (Analyzer.TypedExpr.nonNull .bool)) ∧
    (∀ (e : Ast.Expr) (neg : Bool),
      Analyzer.checkExpr cat iter (fuel + 1) (.inSubquery e neg) scope =
        .ok (Analyzer.TypedExpr.nonNull .bool)) ∧
    (∀ (l : Ast.Expr) (op : Ast.BinaryOp) (m : Ast.SubqueryModifier),
      Analyzer.checkExpr cat iter (fuel + 1) (.subqueryOp l op m) scope =
        .ok (Analyzer.TypedExpr.nonNull .bool)) ∧
    (∀ (e : Ast.Expr) (tst : Ast.IsTest) (neg : Bool),
      Analyzer.checkExpr cat iter (fuel + 1) (.isExpr e tst neg) scope =
        .ok (Analyzer.TypedExpr.nonNull .bool)) ∧
    (∀ (l r : Ast.Expr) (neg : Bool),
      Analyzer.checkExpr cat iter (fuel + 1) (.isDistinct l r neg) scope =
        .ok (Analyzer.TypedExpr.nonNull .bool)) ∧
    (∀ (neg : Bool),
      Analyzer.checkExpr cat iter (fuel + 1) (.existsExpr neg) scope =
        .ok (Analyzer.TypedExpr.nonNull .bool)) := by
  intro cat iter scope fuel
  refine ⟨?_, ?_, ?_, ?_, ?_, ?_, ?_, ?_, ?_, ?_⟩
  · intro op l r lt rt hop h1 h2
    rcases hop with h | h | h | h | h | h | h | h <;> subst h <;>
      simp [Analyzer.checkExpr, Analyzer.checkBinaryOp, Analyzer.bindE,
        h1, h2]
  · intro e low high neg t1 t2 t3 h1 h2 h3
    simp [Analyzer.checkExpr, Analyzer.bindE, h1, h2, h3]
  · intro e pat esc neg t1 t2 h1 h2
    simp [Analyzer.checkExpr, Analyzer.bindE, h1, h2]
  · intro e vs neg t1 h1 h2
    simp [Analyzer.checkExpr, Analyzer.bindE, h1, h2]
  · intro e neg t1 h1
    show Analyzer.bindE (Analyzer.checkExpr cat iter (fuel + 1) e scope)
        (fun _ => Analyzer.bindE
          (Analyzer.checkInList cat iter (fuel + 1) .subquery scope)
          (fun _ => .ok (Analyzer.TypedExpr.nonNull .bool))) =
      .ok (Analyzer.TypedExpr.nonNull .bool)
    rw [h1]
    simp [Analyzer.checkInList, Analyzer.bindE]
  · intro e neg
    simp [Analyzer.checkExpr]
  · intro l op m
    simp [Analyzer.checkExpr]
  · intro e tst neg
    simp [Analyzer.checkExpr]
  · intro l r neg
    simp [Analyzer.checkExpr]
  · intro neg
    simp [Analyzer.checkExpr]

/-- C4, witness: `1 = NULL` at the test catalog — operands a non-nullable
Int64 and a nullable Unknown — is typed Bool with nullability inherited
as the disjunction. -/
theorem c4_bool_results_nullability_witness :
    Analyzer.checkExpr testCatalog Analyzer.valuesInOrder (10 + 2)
        (.binaryOp .eq (.integer 1) .null) Analyzer.Scope.new =
      .ok { dataType := .bool, nullable := true, containsAggregate := false,
            containsWindow := false } := by
  have h := (c4_bool_results_nullability testCatalog Analyzer.valuesInOrder
      Analyzer.Scope.new 10).1 .eq (.integer 1) .null
      (Analyzer.TypedExpr.nonNull .int64)
      (Analyzer.TypedExpr.mkNullable .unknown)
      (Or.inl rfl) (by rfl) (by rfl)
  simpa [Analyzer.TypedExpr.nonNull, Analyzer.TypedExpr.mkNullable] using h


/-! ## Claim C5: propagation of the aggregate flag -/

/-- The AST of `COUNT(*)` (an `AggregateCall` with a `Star` argument and
no filter). -/
def countStar : Ast.Expr :=
  .aggregate (.mk (.mk ⟨[ident "COUNT"]⟩ [.star] false none [] none) none)

/-- C5: `contains_aggregate` is not the disjunction over children —
`COUNT(*)` alone is typed with `contains_aggregate = true` (first
conjunct), but `COUNT(*) BETWEEN 1 AND 2`, whose only non-literal child
is that same aggregate call, comes back with `contains_aggregate = false`
(second conjunct): the Between arm rebuilds a fresh non-nullable Bool and
drops the children's flags. -/
theorem c5_contains_aggregate_dropped :
    Analyzer.checkExpr testCatalog Analyzer.valuesInOrder 10 countStar
        Analyzer.Scope.new =
      .ok { dataType := .int64, nullable := true, containsAggregate := true,
            containsWindow := false } ∧
    Analyzer.checkExpr testCatalog Analyzer.valuesInOrder 10
        (.between countStar (.integer 1) (.integer 2) false)
        Analyzer.Scope.new =
      .ok { dataType := .bool, nullable := false,
            containsAggregate := false, containsWindow := false } :=
  ⟨rfl, rfl⟩


/-! ## Claim C6: set-operation column counts -/

/-- C6: when both sides of a set operation analyze successfully, a column
count mismatch fails with `SetOperationColumnMismatch` carrying the left
and right counts, and equal counts succeed with the left side's result. -/
theorem c6_set_operation_column_mismatch :
    ∀ (cat : Catalog.Catalog)
      (iter : List (String × Analyzer.ScopeTable) →
        List Analyzer.ScopeTable)
      (fuel : Nat) (op : Ast.SetOperator) (all : Bool)
      (l r : Ast.QueryBody) (s s1 s2 : Analyzer.AnalyzerState)
      (ql qr : Analyzer.AnalyzedQuery),
      Analyzer.analyzeQueryBody cat iter fuel l s = (.ok ql, s1) →
      Analyzer.analyzeQueryBody cat iter fuel r s1 = (.ok qr, s2) →
      (ql.columns.length ≠ qr.columns.length →
        Analyzer.analyzeQueryBody cat iter (fuel + 1)
            (.setOperation op all l r) s =
          (.error (.setOperationColumnMismatch ql.columns.length
            qr.columns.length), s2)) ∧
      (ql.columns.length = qr.columns.length →
        Analyzer.analyzeQueryBody cat iter (fuel + 1)
            (.setOperation op all l r) s = (.ok ql, s2)) := by
  intro cat iter fuel op all l r s s1 s2 ql qr h1 h2
  constructor
  · intro hne
    simp [Analyzer.analyzeQueryBody, Analyzer.bindS, h1, h2, hne]
  · intro heq
    simp [Analyzer.analyzeQueryBody, Analyzer.bindS, h1, h2, heq]

/-- C6, witness: `SELECT id FROM users UNION SELECT id, name FROM users`
fails with `SetOperationColumnMismatch` carrying counts 1 and 2. -/
theorem c6_set_operation_column_mismatch_witness :
    Analyzer.analyzeQueryBody testCatalog Analyzer.valuesInOrder (50 + 1)
        (.setOperation .union false (.select selectIdFromUsers)
          (.select selectIdNameFromUsers)) Analyzer.AnalyzerState.initial =
      (.error (.setOperationColumnMismatch 1 2),
        Analyzer.AnalyzerState.initial) := by
  have h1 : Analyzer.analyzeQueryBody testCatalog Analyzer.valuesInOrder 50
      (.select selectIdFromUsers) Analyzer.AnalyzerState.initial =
      (.ok { columns := [{ name := "id", dataType := .int64,
                           nullable := false }],
             hasAggregation := false, hasWindowFunctions := false },
       Analyzer.AnalyzerState.initial) := by rfl
  have h2 : Analyzer.analyzeQueryBody testCatalog Analyzer.valuesInOrder 50
      (.select selectIdNameFromUsers) Analyzer.AnalyzerState.initial =
      (.ok { columns := [{ name := "id", dataType := .int64,
                           nullable := false },
                         { name := "name", dataType := .varchar,
                           nullable := true }],
             hasAggregation := false, hasWindowFunctions := false },
       Analyzer.AnalyzerState.initial) := by rfl
  have h := (c6_set_operation_column_mismatch testCatalog
      Analyzer.valuesInOrder 50 .union false (.select selectIdFromUsers)
      (.select selectIdNameFromUsers) Analyzer.AnalyzerState.initial
      Analyzer.AnalyzerState.initial Analyzer.AnalyzerState.initial
      _ _ h1 h2).1 (by decide)
  simpa using h



/-! ## Claim C10: wildcard expansion and `HashMap` iteration order -/

/-- A second admissible `HashMap::values` iteration order: the stored
values in reverse insertion order (any permutation of the values is a
possible iteration of the `std` `HashMap`). -/
def valuesReversed {α : Type} (l : List (String × α)) : List α :=
  (l.map Prod.snd).reverse

/-- The FROM scope of `SELECT * FROM users, orders` as `analyze_table_ref`
builds it: both catalog tables bound, keyed by their lowercased aliases in
insertion order. -/
def c10TablesFixture : List (String × Analyzer.ScopeTable) :=
  [("users", ⟨"users", ["users"],
     Analyzer.tableSchemaToColumns usersTable "users"⟩),
   ("orders", ⟨"orders", ["orders"],
     Analyzer.tableSchemaToColumns ordersTable "orders"⟩)]

/-- The analyzer state right after the FROM clause of
`SELECT * FROM users, orders` has been analyzed (current scope holds both
tables). -/
def c10ScopeState : Analyzer.AnalyzerState :=
  ⟨[{ Analyzer.Scope.new with tables := c10TablesFixture }], []⟩

/-- C10, counterexample: expanding the `*` projection of
`SELECT * FROM users, orders` (the Wildcard arm of `analyze_select`,
running over the scope the FROM clause built) iterates the scope's table
`HashMap`: under insertion order the `users` columns come first, under
the equally admissible reversed order the `orders` columns come first —
two runs differing only in the unspecified iteration order produce
different output column lists, so the analysis result is not
deterministic. -/
theorem c10_wildcard_order_counterexample :
    Analyzer.analyzeProjection testCatalog Analyzer.valuesInOrder 10
        [.wildcard] [] false false c10ScopeState =
      .ok ([{ name := "id", dataType := .int64, nullable := false },
            { name := "name", dataType := .varchar, nullable := true },
            { name := "age", dataType := .int64, nullable := true },
            { name := "email", dataType := .varchar, nullable := true },
            { name := "id", dataType := .int64, nullable := false },
            { name := "user_id", dataType := .int64, nullable := true },
            { name := "amount", dataType := .float64, nullable := true },
            { name := "created_at", dataType := .timestamp,
              nullable := true }], false, false) ∧
    Analyzer.analyzeProjection testCatalog valuesReversed 10
        [.wildcard] [] false false c10ScopeState =
      .ok ([{ name := "id", dataType := .int64, nullable := false },
            { name := "user_id", dataType := .int64, nullable := true },
            { name := "amount", dataType := .float64, nullable := true },
            { name := "created_at", dataType := .timestamp,
              nullable := true },
            { name := "id", dataType := .int64, nullable := false },
            { name := "name", dataType := .varchar, nullable := true },
            { name := "age", dataType := .int64, nullable := true },
            { name := "email", dataType := .varchar, nullable := true }],
        false, false) ∧
    ([{ name := "id", dataType := .int64, nullable := false },
      { name := "name", dataType := .varchar, nullable := true },
      { name := "age", dataType := .int64, nullable := true },
      { name := "email", dataType := .varchar, nullable := true },
      { name := "id", dataType := .int64, nullable := false },
      { name := "user_id", dataType := .int64, nullable := true },
      { name := "amount", dataType := .float64, nullable := true },
      { name := "created_at", dataType := .timestamp,
        nullable := true }] : List Analyzer.OutputColumn) ≠
      [{ name := "id", dataType := .int64, nullable := false },
       { name := "user_id", dataType := .int64, nullable := true },
       { name := "amount", dataType := .float64, nullable := true },
       { name := "created_at", dataType := .timestamp, nullable := true },
       { name := "id", dataType := .int64, nullable := false },
       { name := "name", dataType := .varchar, nullable := true },
       { name := "age", dataType := .int64, nullable := true },
       { name := "email", dataType := .varchar, nullable := true }] := by
  exact ⟨rfl, rfl, by decide⟩

/-- C10 (amended): wildcard expansion is deterministic only up to
permutation — any two admissible `HashMap::values` iteration orders (both
permutations of the stored tables) yield wildcard column lists that are
permutations of each other. -/
theorem c10_wildcard_columns_perm :
    ∀ (iter1 iter2 : List (String × Analyzer.ScopeTable) →
        List Analyzer.ScopeTable)
      (l : List (String × Analyzer.ScopeTable)),
      (iter1 l).Perm (l.map Prod.snd) →
      (iter2 l).Perm (l.map Prod.snd) →
      (Analyzer.wildcardColumns (iter1 l)).Perm
        (Analyzer.wildcardColumns (iter2 l)) := by
  intro iter1 iter2 l h1 h2
  exact (h1.trans h2.symm).flatMap_right _

/-- C10, witness: at the two-table scope of the counterexample, insertion
order and reverse order are both permutations of the stored values and
give wildcard column lists that are permutations of each other. -/
theorem c10_wildcard_columns_perm_witness :
    (Analyzer.valuesInOrder c10TablesFixture).Perm
      (c10TablesFixture.map Prod.snd) ∧
    (valuesReversed c10TablesFixture).Perm
      (c10TablesFixture.map Prod.snd) ∧
    (Analyzer.wildcardColumns
        (Analyzer.valuesInOrder c10TablesFixture)).Perm
      (Analyzer.wildcardColumns (valuesReversed c10TablesFixture)) :=
  ⟨by simp [Analyzer.valuesInOrder],
   by simp [valuesReversed, List.reverse_perm],
   c10_wildcard_columns_perm Analyzer.valuesInOrder valuesReversed
     c10TablesFixture (by simp [Analyzer.valuesInOrder])
     (by simp [valuesReversed, List.reverse_perm])⟩


end VibeSql
